import Mathlib

/-!
Verification of the literature-match reference-resolution engine.

This file shallowly embeds the Python sources under `scripts/` —
`normalize.py`, `bbt_library.py`, `retrieval_tfidf.py`, `refs_extracted.py`,
`match_pipeline.py`, `apply_llm_decisions.py` — as executable Lean
definitions, and proves or refutes the frozen specification claims.

Conventions of the embedding:
* Python `dict` objects with a known field set become structures whose
  fields are `Option`-typed; an absent key is `none`.
* Insertion-ordered dictionaries with dynamic keys become association
  lists with replace-in-place assignment (`dictSet`) and
  `setdefault(k, []).append(v)` (`dictPush`).
* Python floats become `ℚ`; Python `str` becomes `String`.
* Fallible code returns `Except String`.
* The regular expressions of `normalize.py` are compiled by hand into
  character-list scanners with the same matching semantics
  (leftmost, non-overlapping, with the backtracking behaviour each
  concrete pattern actually has).
* `sklearn`'s TF-IDF vectorizer is an external library; its
  query-scoring is abstracted as a function parameter
  `String → List ℚ`, everything around it is translated faithfully.
-/

/-! ## Python-semantics helpers -/

/-- Python `str.isspace` over the ASCII whitespace characters. -/
def pyIsSpace (c : Char) : Bool :=
  c = ' ' || c = '\t' || c = '\n' || c = '\x0b' || c = '\x0c' || c = '\r'

/-- A regex word character (`\w` over ASCII input): `[a-zA-Z0-9_]`. -/
def isWordChar (c : Char) : Bool :=
  c.isAlphanum || c = '_'

/-- Python truthiness of an optional string: `None` and `""` are falsy. -/
def pyTruthy : Option String → Bool
  | some s => s ≠ ""
  | none => false

/-- Python `a or b` on optional strings (falsy `a` falls through). -/
def pyOrOpt (a b : Option String) : Option String :=
  match a with
  | some s => if s = "" then b else some s
  | none => b

/-- Python `x or ""` on an optional string. -/
def pyStr (o : Option String) : String := o.getD ""

/-- Left strip of a character set (Python `str.lstrip(chars)`). -/
def lstripChars (set : List Char) (s : String) : String :=
  String.mk (s.data.dropWhile (fun c => set.contains c))

/-- Right strip of a character set (Python `str.rstrip(chars)`). -/
def rstripChars (set : List Char) (s : String) : String :=
  String.mk ((s.data.reverse.dropWhile (fun c => set.contains c)).reverse)

/-- Both-ends strip of a character set (Python `str.strip(chars)`). -/
def stripChars (set : List Char) (s : String) : String :=
  rstripChars set (lstripChars set s)

/-- Python substring membership `needle in hay` (for non-empty needles). -/
def strContains (hay needle : String) : Bool :=
  (hay.splitOn needle).length > 1

/-- Association-list lookup, mirrors Python `d.get(k)` / `d[k]`. -/
def dictGet {α : Type} : List (String × α) → String → Option α
  | [], _ => none
  | (k₁, v) :: rest, k => if k₁ = k then some v else dictGet rest k

/-- Association-list assignment, mirrors Python `d[k] = v`
(replaces in place, else appends; insertion order preserved). -/
def dictSet {α : Type} : List (String × α) → String → α → List (String × α)
  | [], k, v => [(k, v)]
  | (k₁, v₁) :: rest, k, v =>
    if k₁ = k then (k, v) :: rest else (k₁, v₁) :: dictSet rest k v

/-- Mirrors Python `d.setdefault(k, []).append(v)`. -/
def dictPush {α : Type} : List (String × List α) → String → α → List (String × List α)
  | [], k, v => [(k, [v])]
  | (k₁, l) :: rest, k, v =>
    if k₁ = k then (k₁, l ++ [v]) :: rest else (k₁, l) :: dictPush rest k v

/-- A scalar JSON value as Python sees it (for duck-typed fields). -/
inductive PyVal where
  | vnull
  | vint (n : Int)
  | vbool (b : Bool)
  | vstr (s : String)
deriving DecidableEq, Repr

/-- Python `str(value)` on a scalar JSON value. -/
def pyStrVal : PyVal → String
  | .vnull => "None"
  | .vint n => toString n
  | .vbool true => "True"
  | .vbool false => "False"
  | .vstr s => s

/-- Python `value is None` on a scalar JSON value. -/
def isNoneVal : PyVal → Bool
  | .vnull => true
  | _ => false

/-- Parse a signed decimal integer, mirroring Python `int(str)` on the
strings that can appear here (sign followed by one or more digits). -/
def pyParseInt (s : String) : Option Int :=
  let cs := s.data
  let (sign, digits) :=
    match cs with
    | '-' :: rest => ((-1 : Int), rest)
    | '+' :: rest => ((1 : Int), rest)
    | _ => ((1 : Int), cs)
  if digits = [] || !digits.all Char.isDigit then none
  else some (sign * (String.mk digits).toNat!)

/-! ## `normalize.py` — `coerce_int` -/

/-- `normalize.coerce_int`: best-effort int coercion with a default. -/
def coerce_int (value : PyVal) (default : Int) : Int :=
  match value with
  | .vnull => default
  | .vbool _ => default
  | .vint n => n
  | .vstr s =>
    match pyParseInt s.trim with
    | some n => n
    | none => default

/-- `coerce_int` lifted over an absent value (`None` in Python). -/
def coerceIntOpt (value : Option PyVal) (default : Int) : Int :=
  match value with
  | some v => coerce_int v default
  | none => default

/-! ## `normalize.py` — the regular expressions

Each Python pattern is compiled into a matcher
`Option Char → List Char → Option (Nat × Nat × Nat)` taking the
character before the current position (for `\b`) and the remaining
input, and returning `(full match length, group-1 offset, group-1
length)` when the pattern matches at the current position. -/

/-- Case-insensitive literal match; returns the remaining input. -/
def matchCI : List Char → List Char → Option (List Char)
  | [], cs => some cs
  | _ :: _, [] => none
  | p :: ps, c :: cs => if c.toLower = p then matchCI ps cs else none

/-- `YEAR_PATTERN = \b(19\d{2}|20\d{2})\b`. -/
def tryYear (prev : Option Char) (cs : List Char) : Option (Nat × Nat × Nat) :=
  match cs with
  | c0 :: c1 :: c2 :: c3 :: rest =>
    let bPrev := match prev with | none => true | some p => !isWordChar p
    let firstTwo := (c0 = '1' && c1 = '9') || (c0 = '2' && c1 = '0')
    let bNext := match rest with | [] => true | d :: _ => !isWordChar d
    if bPrev && firstTwo && c2.isDigit && c3.isDigit && bNext then
      some (4, 0, 4)
    else none
  | _ => none

/-- Characters that terminate a URL match: `[^\s\)\]\}>,;]` complement. -/
def urlStopChar (c : Char) : Bool :=
  pyIsSpace c || c = ')' || c = ']' || c = '\x7d' || c = '>' || c = ',' || c = ';'

/-- `URL_PATTERN = (https?://[^\s\)\]\}>,;]+)`, case-insensitive. -/
def tryUrl (_prev : Option Char) (cs : List Char) : Option (Nat × Nat × Nat) :=
  match matchCI ['h', 't', 't', 'p'] cs with
  | none => none
  | some cs₁ =>
    let (extra, cs₂) :=
      match cs₁ with
      | c :: rest => if c.toLower = 's' then (1, rest) else (0, cs₁)
      | [] => (0, cs₁)
    match matchCI [':', '/', '/'] cs₂ with
    | none => none
    | some cs₃ =>
      let k := (cs₃.takeWhile (fun c => !urlStopChar c)).length
      if k = 0 then none
      else
        let len := 4 + extra + 3 + k
        some (len, 0, len)

/-- Characters allowed in a DOI suffix: `[-._;()/:A-Z0-9]`, case-insensitive. -/
def doiBodyChar (c : Char) : Bool :=
  c.isAlphanum || c = '-' || c = '.' || c = '_' || c = ';' || c = '(' ||
    c = ')' || c = '/' || c = ':'

/-- `DOI_PATTERN = (10\.\d{4,9}/[-._;()/:A-Z0-9]+)`, case-insensitive. -/
def tryDoi (_prev : Option Char) (cs : List Char) : Option (Nat × Nat × Nat) :=
  match cs with
  | '1' :: '0' :: '.' :: rest =>
    let ds := (rest.takeWhile Char.isDigit).length
    if ds < 4 || 9 < ds then none
    else
      match rest.drop ds with
      | '/' :: body =>
        let m := (body.takeWhile doiBodyChar).length
        if m = 0 then none
        else
          let len := 3 + ds + 1 + m
          some (len, 0, len)
      | _ => none
  | _ => none

/-- The `(?:v\d+)?\b` tail of the arXiv pattern: returns the number of
consumed characters when the optional version suffix plus word boundary
can be satisfied starting at `cs`. -/
def tryArxivTail (cs : List Char) : Option Nat :=
  let noSuffix :=
    match cs with
    | [] => some 0
    | c :: _ => if isWordChar c then none else some 0
  match cs with
  | v :: d :: rest =>
    if v.toLower = 'v' && d.isDigit then
      let m := (rest.takeWhile Char.isDigit).length
      match rest.drop m with
      | [] => some (2 + m)
      | c :: _ => if isWordChar c then none else some (2 + m)
    else noSuffix
  | _ => noSuffix

/-- The `\d{4}\.\d{4,5}` core of the arXiv pattern followed by the
optional version tail; returns `(consumed length, group length)`. -/
def tryArxivDigits (cs : List Char) : Option (Nat × Nat) :=
  match cs with
  | a :: b :: c :: d :: '.' :: rest =>
    if a.isDigit && b.isDigit && c.isDigit && d.isDigit then
      let n := (rest.takeWhile Char.isDigit).length
      if n < 4 then none
      else if n = 4 then
        match tryArxivTail (rest.drop 4) with
        | some suff => some (4 + 1 + 4 + suff, 4 + 1 + 4)
        | none => none
      else if n = 5 then
        match tryArxivTail (rest.drop 5) with
        | some suff => some (4 + 1 + 5 + suff, 4 + 1 + 5)
        | none => none
      else none
    else none
  | _ => none

/-- `ARXIV_PATTERN = \b(?:arxiv:)?(\d{4}\.\d{4,5})(?:v\d+)?\b`,
case-insensitive. -/
def tryArxiv (prev : Option Char) (cs : List Char) : Option (Nat × Nat × Nat) :=
  let bPrev := match prev with | none => true | some p => !isWordChar p
  if !bPrev then none
  else
    match matchCI ['a', 'r', 'x', 'i', 'v', ':'] cs with
    | some rest =>
      match tryArxivDigits rest with
      | some (l, gl) => some (6 + l, 6, gl)
      | none =>
        match tryArxivDigits cs with
        | some (l, gl) => some (l, 0, gl)
        | none => none
    | none =>
      match tryArxivDigits cs with
      | some (l, gl) => some (l, 0, gl)
      | none => none

/-- `ACCESS_YEAR_CONTEXT_PATTERN = \b(accessed|retrieved|visited)\b`,
case-insensitive. -/
def tryAccess (prev : Option Char) (cs : List Char) : Option (Nat × Nat × Nat) :=
  let bPrev := match prev with | none => true | some p => !isWordChar p
  if !bPrev then none
  else
    let tryWord (w : List Char) : Option (Nat × Nat × Nat) :=
      match matchCI w cs with
      | some rest =>
        match rest with
        | [] => some (w.length, 0, w.length)
        | c :: _ => if isWordChar c then none else some (w.length, 0, w.length)
      | none => none
    match tryWord ['a', 'c', 'c', 'e', 's', 's', 'e', 'd'] with
    | some r => some r
    | none =>
      match tryWord ['r', 'e', 't', 'r', 'i', 'e', 'v', 'e', 'd'] with
      | some r => some r
      | none => tryWord ['v', 'i', 's', 'i', 't', 'e', 'd']

/-- One span produced by `finditer`: absolute
`(start, end, group-1 start, group-1 end)` positions. -/
abbrev Span := Nat × Nat × Nat × Nat

/-- `re.finditer` driver: scan left to right, record each leftmost
non-overlapping match, resume after its end.  `fuel` bounds the
recursion structurally (one unit per consumed character suffices). -/
def finditerGo (tryM : Option Char → List Char → Option (Nat × Nat × Nat)) :
    Nat → Option Char → List Char → Nat → List Span
  | 0, _, _, _ => []
  | _ + 1, _, [], _ => []
  | fuel + 1, prev, c :: rest, i =>
    match tryM prev (c :: rest) with
    | some (len, go, gl) =>
      if len = 0 then finditerGo tryM fuel (some c) rest (i + 1)
      else
        let consumed := (c :: rest).take len
        (i, i + len, i + go, i + go + gl) ::
          finditerGo tryM fuel consumed.getLast? ((c :: rest).drop len) (i + len)
    | none => finditerGo tryM fuel (some c) rest (i + 1)

/-- All matches of a pattern in a character list. -/
def finditer (tryM : Option Char → List Char → Option (Nat × Nat × Nat))
    (cs : List Char) : List Span :=
  finditerGo tryM (cs.length + 1) none cs 0

/-- The substring of `cs` between absolute positions `s` and `e`. -/
def sliceStr (cs : List Char) (s e : Nat) : String :=
  String.mk ((cs.drop s).take (e - s))

/-! ## `normalize.py` — extraction and normalization functions -/

/-- `normalize.normalize_doi`: lower-case, strip DOI scheme prefixes and
surrounding punctuation; `None` for `None`/blank input. -/
def normalize_doi (raw : Option String) : Option String :=
  match raw with
  | none => none
  | some r =>
    let text := r.trim
    if text = "" then none
    else
      let text := text.toLower
      let text :=
        if text.startsWith "https://doi.org/" then (text.drop 16).trim
        else if text.startsWith "http://doi.org/" then (text.drop 15).trim
        else if text.startsWith "doi:" then (text.drop 4).trim
        else if text.startsWith "doi " then (text.drop 4).trim
        else text
      some (stripChars ['.', ',', ';', ':', '(', ')', '[', ']', '\x7b', '\x7d', '<', '>'] text.trim)

/-- `normalize.normalize_url`: strip punctuation, lower-case, strip
scheme, leading `www.`, trailing slash; `None` for `None`/blank input. -/
def normalize_url (raw : Option String) : Option String :=
  match raw with
  | none => none
  | some r =>
    let text := r.trim
    if text = "" then none
    else
      let text := stripChars ['.', ',', ';', ':', '(', ')', '[', ']', '\x7b', '\x7d', '<', '>'] text.trim
      let text := text.toLower
      let text :=
        if text.startsWith "https://" then text.drop 8
        else if text.startsWith "http://" then text.drop 7
        else text
      let text := if text.startsWith "www." then text.drop 4 else text
      some (rstripChars ['/'] text)

/-- `normalize.extract_first_url`: first URL match, right-stripped of
closing punctuation. -/
def extract_first_url (text : String) : Option String :=
  if text = "" then none
  else
    match finditer tryUrl text.data with
    | [] => none
    | (_, _, gs, ge) :: _ => some (rstripChars [')', '.', ',', ';', ']'] (sliceStr text.data gs ge))

/-- `normalize.extract_doi`: first DOI match, right-stripped of closing
punctuation. -/
def extract_doi (text : String) : Option String :=
  if text = "" then none
  else
    match finditer tryDoi text.data with
    | [] => none
    | (_, _, gs, ge) :: _ => some (rstripChars [')', '.', ',', ';', ']'] (sliceStr text.data gs ge))

/-- `normalize.extract_arxiv_id`: first arXiv-shaped token (group 1,
without prefix or version suffix). -/
def extract_arxiv_id (text : String) : Option String :=
  if text = "" then none
  else
    match finditer tryArxiv text.data with
    | [] => none
    | (_, _, gs, ge) :: _ => some (sliceStr text.data gs ge)

/-- `extract_arxiv_id` applied to an optional string (`None` stays `None`). -/
def extractArxivOpt (o : Option String) : Option String :=
  match o with
  | some s => extract_arxiv_id s
  | none => none

/-- Does the span `(s, e)` overlap any recorded ignore span? -/
def overlapsAny (spans : List (Nat × Nat)) (s e : Nat) : Bool :=
  spans.any (fun p => s < p.2 && e > p.1)

/-- The `is_access_year` helper of `extract_year`: is the last
access-context word within the 80-character window before `start` at
most 50 characters away? -/
def isAccessYear (cs : List Char) (start : Nat) : Bool :=
  let windowStart := start - 80
  let window := (cs.drop windowStart).take (start - windowStart)
  match (finditer tryAccess window).getLast? with
  | none => false
  | some (ms, _, _, _) => window.length - ms ≤ 50

/-- The `in_parentheses` helper of `extract_year`: skipping whitespace,
is the span immediately preceded by `(` and followed by `)`? -/
def inParens (cs : List Char) (s e : Nat) : Bool :=
  let before := ((cs.take s).reverse.dropWhile pyIsSpace).head?
  let after := ((cs.drop e).dropWhile pyIsSpace).head?
  before = some '(' && after = some ')'

/-- `normalize.extract_year`: 4-digit year candidates outside
URL/DOI/arXiv spans, access-context years removed, parenthesized years
preferred, rightmost winner. -/
def extract_year (text : String) : Option String :=
  if text = "" then none
  else
    let cs := text.data
    let ignoreSpans :=
      ((finditer tryUrl cs ++ finditer tryDoi cs ++ finditer tryArxiv cs).map
        (fun sp => (sp.1, sp.2.1)))
    let candidates :=
      ((finditer tryYear cs).map (fun sp => (sp.2.2.1, sp.2.2.2))).filter
        (fun p => !overlapsAny ignoreSpans p.1 p.2)
    if candidates = [] then none
    else
      let nonAccess := candidates.filter (fun p => !isAccessYear cs p.1)
      if nonAccess = [] then none
      else
        let paren := nonAccess.filter (fun p => inParens cs p.1 p.2)
        let pick (l : List (Nat × Nat)) : Option String :=
          (l.foldl (fun acc p =>
            match acc with
            | none => some p
            | some q => if q.1 < p.1 then some p else some q) none).map
            (fun p => sliceStr cs p.1 p.2)
        if paren ≠ [] then pick paren else pick nonAccess

/-- `extract_year` applied to an optional string (`None` stays `None`). -/
def extractYearOpt (o : Option String) : Option String :=
  match o with
  | some s => extract_year s
  | none => none

/-! ## `bbt_library.py` — data model -/

/-- One entry of a Better BibTeX `creators` list. -/
structure Creator where
  creatorType : Option String
  lastName : Option String
  firstName : Option String
deriving DecidableEq, Repr

/-- One entry of a Zotero `tags` list: either a bare string or an
object with a `tag` field. -/
inductive Tag where
  | str (s : String)
  | obj (tag : Option String)
deriving DecidableEq, Repr

/-- One entry of an `attachments` list. -/
structure Attachment where
  title : Option String
  path : Option String
  url : Option String
deriving DecidableEq, Repr

/-- A raw Better BibTeX library item (the fields the code reads). -/
structure Item where
  citationKey : Option String := none
  itemKey : Option String := none
  title : Option String := none
  date : Option String := none
  issued : Option String := none
  year : Option String := none
  DOI : Option String := none
  doi : Option String := none
  url : Option String := none
  URL : Option String := none
  creators : List Creator := []
  tags : List Tag := []
  attachments : List Attachment := []
  extra : Option String := none
deriving DecidableEq, Repr

/-- A PDF attachment summary (`{title, path, url}`). -/
structure PdfAtt where
  title : String
  path : String
  url : String
deriving DecidableEq, Repr

/-- A summarized library record (the value stored in
`LibraryIndex.records`). -/
structure Record where
  citekey : String
  itemKey : String
  title : String
  year : Option String
  authors : List String
  doi : Option String
  url : Option String
  zotero_tags : List String
  pdf_attachments : List PdfAtt
deriving DecidableEq, Repr

/-- `bbt_library.LibraryIndex`. -/
structure LibraryIndex where
  records : List (String × Record)
  by_doi : List (String × List String)
  by_arxiv : List (String × List String)
  by_url : List (String × List String)
  total_items : Nat
  indexed_items : Nat
  warnings : List String
deriving DecidableEq, Repr

/-- The raw library export: an object with an `items` list, or a bare
list of items (`bbt_library.iter_library_items` handles both). -/
inductive BBTData where
  | obj (items : Option (List Item))
  | arr (items : List Item)

/-- `bbt_library.iter_library_items`. -/
def iter_library_items : BBTData → List Item
  | .obj (some l) => l
  | .obj none => []
  | .arr l => l

/-- `bbt_library._extract_year`: first `19xx`/`20xx` token of a field. -/
def itemFieldYear (value : Option String) : Option String :=
  match value with
  | none => none
  | some text =>
    match finditer tryYear text.data with
    | [] => none
    | (_, _, gs, ge) :: _ => some (sliceStr text.data gs ge)

/-- `bbt_library._format_creators`: author-type contributors formatted
as `Family, Given`. -/
def _format_creators (creators : List Creator) : List String :=
  creators.filterMap (fun c =>
    let ctype := (pyStr c.creatorType).toLower
    if ctype ≠ "author" && ctype ≠ "" then none
    else
      let last := (pyStr c.lastName).trim
      let first := (pyStr c.firstName).trim
      if last ≠ "" && first ≠ "" then some (last ++ ", " ++ first)
      else if last ≠ "" then some last
      else if first ≠ "" then some first
      else none)

/-- `bbt_library._normalize_tags`. -/
def _normalize_tags (tags : List Tag) : List String :=
  tags.filterMap (fun t =>
    let tag :=
      match t with
      | .str s => s.trim
      | .obj o => (pyStr o).trim
    if tag = "" then none else some tag)

/-- `bbt_library._is_pdf_attachment`. -/
def _is_pdf_attachment (att : Attachment) : Bool :=
  let path := pyStr att.path
  let title := pyStr att.title
  let url := pyStr att.url
  if path.toLower.endsWith ".pdf" || title.toLower.endsWith ".pdf" ||
      url.toLower.endsWith ".pdf" then true
  else
    let lowered := url.toLower
    if strContains lowered ("arxiv.org/pdf/") then true
    else strContains lowered ("/pdf/")

/-- `bbt_library._extract_pdf_attachments`. -/
def _extract_pdf_attachments (attachments : List Attachment) : List PdfAtt :=
  attachments.filterMap (fun att =>
    if _is_pdf_attachment att then
      some { title := pyStr att.title, path := pyStr att.path, url := pyStr att.url }
    else none)

/-- `bbt_library.summarize_item`: `None` unless the item carries a
non-blank citekey. -/
def summarize_item (item : Item) : Option Record :=
  match item.citationKey with
  | none => none
  | some citekey =>
    if citekey.trim = "" then none
    else
      some
        { citekey := citekey
          itemKey := pyStr item.itemKey
          title := (pyStr item.title).trim
          year :=
            pyOrOpt (itemFieldYear item.date)
              (pyOrOpt (itemFieldYear item.issued) (itemFieldYear item.year))
          authors := _format_creators item.creators
          doi :=
            let d := (pyStr (pyOrOpt item.DOI item.doi)).trim
            if d = "" then none else some d
          url :=
            let u := (pyStr (pyOrOpt item.url item.URL)).trim
            if u = "" then none else some u
          zotero_tags := _normalize_tags item.tags
          pdf_attachments := _extract_pdf_attachments item.attachments }

/-- The per-item indexing state of `build_library_index`. -/
structure BuildState where
  records : List (String × Record)
  by_doi : List (String × List String)
  by_arxiv : List (String × List String)
  by_url : List (String × List String)

/-- One iteration of the `build_library_index` loop. -/
def buildStep (st : BuildState) (item : Item) : BuildState :=
  match summarize_item item with
  | none => st
  | some summary =>
    let st := { st with records := dictSet st.records summary.citekey summary }
    let st :=
      match normalize_doi summary.doi with
      | some d =>
        if d = "" then st
        else { st with by_doi := dictPush st.by_doi d summary.citekey }
      | none => st
    let st :=
      match normalize_url summary.url with
      | some u =>
        if u = "" then st
        else { st with by_url := dictPush st.by_url u summary.citekey }
      | none => st
    let arxivId := pyOrOpt (extractArxivOpt summary.doi) (extractArxivOpt summary.url)
    let arxivId :=
      match arxivId with
      | some a => some a
      | none =>
        match item.extra with
        | some extra => if extra = "" then none else extract_arxiv_id extra
        | none => none
    match arxivId with
    | some a =>
      if a = "" then st
      else { st with by_arxiv := dictPush st.by_arxiv a summary.citekey }
    | none => st

/-- Collision warnings for one reverse index (list rendered without
Python string quoting). -/
def collisionWarnings (label : String) (idx : List (String × List String)) : List String :=
  (idx.filter (fun p => 1 < p.2.length)).map (fun p =>
    "Duplicate " ++ label ++ " index for " ++ p.1 ++ ": " ++ String.intercalate ", " p.2)

/-- `bbt_library.build_library_index`. -/
def build_library_index (data : BBTData) : LibraryIndex :=
  let items := iter_library_items data
  let st := items.foldl buildStep { records := [], by_doi := [], by_arxiv := [], by_url := [] }
  { records := st.records
    by_doi := st.by_doi
    by_arxiv := st.by_arxiv
    by_url := st.by_url
    total_items := items.length
    indexed_items := st.records.length
    warnings :=
      collisionWarnings ("DOI") st.by_doi ++ collisionWarnings ("arXiv") st.by_arxiv ++
        collisionWarnings ("URL") st.by_url }

/-! ## `retrieval_tfidf.py`

The sklearn vectorizer and score matrix are external code; the pair
`(vectorizer, matrix)` is abstracted as a scoring function
`String → List ℚ` that returns, for a query, the `linear_kernel`
similarity row aligned with `citekeys`.  Everything around it is
translated from the source. -/

/-- `retrieval_tfidf.TfidfRetrievalIndex`; `matrix = none` models the
Python `matrix is None` state for an empty title list. -/
structure TfidfRetrievalIndex where
  citekeys : List String
  titles : List String
  matrix : Option (String → List ℚ)

/-- `retrieval_tfidf.build_tfidf_index`. -/
def build_tfidf_index (score : String → List ℚ) (records : List (String × Record)) :
    TfidfRetrievalIndex :=
  let citekeys := records.map Prod.fst
  let titles := citekeys.map (fun c =>
    match dictGet records c with
    | some r => if r.title = "" then "" else r.title
    | none => "")
  { citekeys := citekeys, titles := titles
    matrix := if titles.isEmpty then none else some score }

/-- Stable descending insertion into a score-sorted pair list:
strictly greater scores stay in front, so earlier elements precede
equal-score later ones as Python's stable sort guarantees. -/
def insertPairDesc (x : String × ℚ) : List (String × ℚ) → List (String × ℚ)
  | [] => [x]
  | y :: ys => if y.2 > x.2 then y :: insertPairDesc x ys else x :: y :: ys

/-- Stable descending sort of `(citekey, score)` pairs by score
(`scored.sort(key=lambda x: x[1], reverse=True)`). -/
def sortPairsDesc : List (String × ℚ) → List (String × ℚ)
  | [] => []
  | x :: xs => insertPairDesc x (sortPairsDesc xs)

/-- `retrieval_tfidf.retrieve_top_k`. -/
def retrieve_top_k (index : TfidfRetrievalIndex) (query : String) (top_k : Int) :
    List (String × ℚ) :=
  let query_text := query.trim
  if query_text = "" || index.citekeys.isEmpty || index.matrix.isNone then []
  else
    match index.matrix with
    | none => []
    | some score =>
      let scores := score query_text
      let scored := index.citekeys.zip scores
      (sortPairsDesc scored).take (max 0 top_k).toNat

/-! ## `match_pipeline.py` — parameters, candidates, boosts -/

/-- `match_pipeline.MatchParams` (defaults as in the source). -/
structure MatchParams where
  top_k : Int := 10
  tfidf_auto_match_threshold : ℚ := 0.90
  tfidf_auto_match_gap : ℚ := 0.10
  tfidf_needs_llm_threshold : ℚ := 0.25
  year_boost : ℚ := 0.03
  author_boost : ℚ := 0.03
deriving DecidableEq, Repr

/-- The default `MatchParams()`. -/
def defaultMatchParams : MatchParams := {}

/-- A candidate dict as built by `_candidate_from_record`. -/
structure Cand where
  citekey : String
  itemKey : String
  score : ℚ
  title : String
  year : Option String
  authors : List String
  doi : Option String
  url : Option String
  zotero_tags : List String
  pdf_attachments : List PdfAtt
deriving DecidableEq, Repr

/-- `match_pipeline._candidate_from_record`. -/
def _candidate_from_record (record : Record) (score : ℚ) : Cand :=
  { citekey := record.citekey
    itemKey := record.itemKey
    score := score
    title := record.title
    year := record.year
    authors := record.authors
    doi := record.doi
    url := record.url
    zotero_tags := record.zotero_tags
    pdf_attachments := record.pdf_attachments }

/-- `match_pipeline._apply_light_boosts`. -/
def _apply_light_boosts (base_score : ℚ) (ref_year ref_author_guess cand_year : Option String)
    (cand_authors : List String) (params : MatchParams) : ℚ :=
  let score := base_score
  let score :=
    if pyTruthy ref_year && pyTruthy cand_year && pyStr ref_year = pyStr cand_year then
      score + params.year_boost
    else score
  match ref_author_guess with
  | some g =>
    if g ≠ "" then
      let needle := g.trim.toLower
      if needle ≠ "" then
        let hay := (String.intercalate " " cand_authors).toLower
        if strContains hay needle then score + params.author_boost else score
      else score
    else score
  | none => score

/-- Descending comparison on the sort key
`(score, citekey)` used by `candidates.sort(..., reverse=True)`:
`a` may precede `b` iff its key is at least `b`'s. -/
def candKeyGe (a b : Cand) : Bool :=
  decide (b.score < a.score) ||
    (decide (a.score = b.score) && !decide (a.citekey < b.citekey))

/-- Strict descending comparison on the candidate sort key. -/
def candKeyGt (a b : Cand) : Bool :=
  decide (b.score < a.score) ||
    (decide (a.score = b.score) && decide (b.citekey < a.citekey))

/-- Stable descending insertion for the candidate sort: strictly
greater keys stay in front, so earlier elements precede equal-key
later ones as Python's stable sort guarantees. -/
def insertCandDesc (x : Cand) : List Cand → List Cand
  | [] => [x]
  | y :: ys => if candKeyGt y x then y :: insertCandDesc x ys else x :: y :: ys

/-- The in-place
`candidates.sort(key=lambda c: (score, citekey), reverse=True)`. -/
def sortCandidates : List Cand → List Cand
  | [] => []
  | x :: xs => insertCandDesc x (sortCandidates xs)

/-! ## Canonical reference and match-result shapes -/

/-- The canonical `parsed` sub-object of a normalized reference. -/
structure ParsedOut where
  doi : Option String := none
  url : Option String := none
  arxiv : Option String := none
  year : Option String := none
  title_guess : Option String := none
  author_guess : Option String := none
deriving DecidableEq, Repr

/-- A normalized reference as produced by `refs_extracted`. -/
structure Ref0 where
  ref_id : String
  line_start : Int
  line_end : Int
  raw_text : String
  parsed : ParsedOut
deriving DecidableEq, Repr

/-- The `match` verdict dict of one reference.  A fresh empty dict
(`{}` in `apply_llm_decisions`) is the all-default value. -/
structure MatchVerdict where
  status : String := ""
  citekey : Option String := none
  itemKey : Option String := none
  method : String := ""
  confidence : ℚ := 0
  reason : Option String := none
deriving DecidableEq, Repr

/-- One entry of the match result `refs` list.  `match? = none` models
a missing/non-dict `match` field (tolerated by `apply_llm_decisions`). -/
structure RefOut where
  ref_id : String
  line_start : Int
  line_end : Int
  raw_text : String
  parsed : ParsedOut
  match? : Option MatchVerdict
  candidates : List Cand
deriving DecidableEq, Repr

/-- The per-status counters. -/
structure Stats where
  total : Nat := 0
  matched : Nat := 0
  needs_llm : Nat := 0
  needs_review : Nat := 0
  unmatched : Nat := 0
deriving DecidableEq, Repr

/-- The `meta` object of a match result (the run-time provenance
fields `generated_at` / endpoint are I/O and are not modelled). -/
structure Meta where
  doc_path : String := ""
  library_item_count : Nat := 0
  library_total_item_count : Nat := 0
  warnings : List String := []
deriving DecidableEq, Repr

/-- The top-level match result artifact. -/
structure MatchResult where
  meta : Meta
  refs : List RefOut
  stats : Stats
deriving DecidableEq, Repr

/-! ## `match_pipeline.py` — the resolution pipeline -/

/-- The normalized reference-side arXiv id of `_deterministic_match`:
`extract_arxiv_id(str(arxiv_id)) if arxiv_id else None`. -/
def arxivNormOf (ref : Ref0) : Option String :=
  match ref.parsed.arxiv with
  | some a => if a = "" then none else extract_arxiv_id a
  | none => none

/-- `match_pipeline._deterministic_match`: DOI, then arXiv id, then
URL against the reverse indices; `(method?, citekeys, confidence)`. -/
def _deterministic_match (ref : Ref0) (library : LibraryIndex) :
    Option String × List String × ℚ :=
  let doiHit : Option (List String) :=
    match normalize_doi ref.parsed.doi with
    | some d => if d = "" then none else dictGet library.by_doi d
    | none => none
  match doiHit with
  | some citekeys =>
    (some ("doi"), citekeys, if citekeys.length = 1 then (0.99 : ℚ) else 0.80)
  | none =>
    let arxivHit : Option (List String) :=
      match arxivNormOf ref with
      | some a => if a = "" then none else dictGet library.by_arxiv a
      | none => none
    match arxivHit with
    | some citekeys =>
      (some ("arxiv"), citekeys, if citekeys.length = 1 then (0.99 : ℚ) else 0.80)
    | none =>
      let urlHit : Option (List String) :=
        match normalize_url ref.parsed.url with
        | some u => if u = "" then none else dictGet library.by_url u
        | none => none
      match urlHit with
      | some citekeys =>
        (some ("url"), citekeys, if citekeys.length = 1 then (0.99 : ℚ) else 0.80)
      | none => (none, [], 0)

/-- `match_pipeline._select_query_text`: `title_guess` if non-blank,
else the raw text. -/
def _select_query_text (ref : Ref0) : String :=
  match ref.parsed.title_guess with
  | some t => if t.trim ≠ "" then t.trim else ref.raw_text.trim
  | none => ref.raw_text.trim

/-- Python `int(x or -1)` on an int-valued field. -/
def pyIntOr (n : Int) : Int := if n = 0 then -1 else n

/-- `stats[status] += 1` for the four pipeline statuses. -/
def statsIncr (st : Stats) (status : String) : Stats :=
  if status = "matched" then { st with matched := st.matched + 1 }
  else if status = "needs_llm" then { st with needs_llm := st.needs_llm + 1 }
  else if status = "needs_review" then { st with needs_review := st.needs_review + 1 }
  else if status = "unmatched" then { st with unmatched := st.unmatched + 1 }
  else st

/-- The deterministic-hit arm of the per-reference loop of
`match_pipeline.build_initial_match_result` (lines 134–146). -/
def detVerdict (library : LibraryIndex) (det_method : String)
    (det_citekeys : List String) (det_conf : ℚ) : MatchVerdict × List Cand :=
  let candidates := det_citekeys.filterMap (fun ck =>
    (dictGet library.records ck).map (fun record =>
      _candidate_from_record record 1))
  if det_citekeys.length = 1 then
    let match_citekey := det_citekeys.head?
    let match_itemkey :=
      match match_citekey with
      | some ck =>
        match dictGet library.records ck with
        | some r => if r.itemKey = "" then none else some r.itemKey
        | none => none
      | none => none
    ({ status := "matched", citekey := match_citekey, itemKey := match_itemkey
       method := det_method, confidence := det_conf }, candidates)
  else
    ({ status := if candidates.isEmpty then "needs_review" else "needs_llm"
       citekey := none, itemKey := none, method := det_method
       confidence := det_conf }, candidates)

/-- The boosted candidate list of the lexical arm (lines 148–165). -/
def lexCands (library : LibraryIndex) (ridx : TfidfRetrievalIndex)
    (params : MatchParams) (ref : Ref0) : List Cand :=
  let query := _select_query_text ref
  let retrieved := retrieve_top_k ridx query params.top_k
  retrieved.filterMap (fun p =>
    (dictGet library.records p.1).map (fun record =>
      _candidate_from_record record
        (_apply_light_boosts p.2 ref.parsed.year ref.parsed.author_guess record.year
          record.authors params)))

/-- `candidates[1].score if len(candidates) > 1 else 0.0`, as a
function of the tail of the sorted candidate list. -/
def top2Of (rest : List Cand) : ℚ :=
  match rest with
  | c2 :: _ => c2.score
  | [] => 0

/-- The lexical arm of the per-reference loop (lines 147–182):
retrieve, boost, sort, classify. -/
def lexVerdict (library : LibraryIndex) (ridx : TfidfRetrievalIndex)
    (params : MatchParams) (ref : Ref0) : MatchVerdict × List Cand :=
  let candidates := sortCandidates (lexCands library ridx params ref)
  match candidates with
  | [] =>
    ({ status := "unmatched", citekey := none, itemKey := none
       method := "none", confidence := 0 }, [])
  | c :: rest =>
    let top1 := c.score
    let top2 := top2Of rest
    let base : MatchVerdict :=
      { status := "unmatched", citekey := none, itemKey := none
        method := "tfidf", confidence := top1 }
    if params.tfidf_auto_match_threshold ≤ top1 ∧
        params.tfidf_auto_match_gap ≤ top1 - top2 then
      ({ base with
          status := "matched"
          citekey := if c.citekey = "" then none else some c.citekey
          itemKey := if c.itemKey = "" then none else some c.itemKey },
        c :: rest)
    else if params.tfidf_needs_llm_threshold ≤ top1 then
      ({ base with status := "needs_llm" }, c :: rest)
    else
      ({ base with status := "needs_review" }, c :: rest)

/-- Assembling one entry of `refs_out` (lines 186–209). -/
def mkRefOut (ref : Ref0) (verdict : MatchVerdict × List Cand) : RefOut :=
  { ref_id := ref.ref_id
    line_start := pyIntOr ref.line_start
    line_end := pyIntOr ref.line_end
    raw_text := ref.raw_text
    parsed := ref.parsed
    match? := some verdict.1
    candidates := verdict.2 }

/-- The body of the per-reference loop of
`match_pipeline.build_initial_match_result` (lines 121–209): resolve
one reference against the library and retrieval indices. -/
def processRef (library : LibraryIndex) (ridx : TfidfRetrievalIndex)
    (params : MatchParams) (ref : Ref0) : RefOut :=
  match _deterministic_match ref library with
  | (some det_method, det_citekeys, det_conf) =>
    mkRefOut ref (detVerdict library det_method det_citekeys det_conf)
  | (none, _, _) =>
    mkRefOut ref (lexVerdict library ridx params ref)

/-- `match_pipeline.build_initial_match_result` over in-memory inputs
(file/endpoint loading is I/O; `score` abstracts the sklearn
vectorizer). -/
def build_initial_match_result (doc_path : String) (metaWarnings : List String)
    (refs : List Ref0) (libraryData : BBTData) (score : String → List ℚ)
    (params : MatchParams) : MatchResult :=
  let library := build_library_index libraryData
  let ridx := build_tfidf_index score library.records
  let refs_out := refs.map (processRef library ridx params)
  let stats := refs_out.foldl (fun st r =>
    let st := { st with total := st.total + 1 }
    match r.match? with
    | some m => statsIncr st m.status
    | none => st) {}
  { meta :=
      { doc_path := doc_path
        library_item_count := library.indexed_items
        library_total_item_count := library.total_items
        warnings := metaWarnings ++ library.warnings }
    refs := refs_out
    stats := stats }

/-! ## `refs_extracted.py` — input normalization -/

/-- The `lines` sub-object alias keys. -/
structure LinesObj where
  start : Option PyVal := none
  line_start : Option PyVal := none
  start_line : Option PyVal := none
  stop : Option PyVal := none
  line_end : Option PyVal := none
  end_line : Option PyVal := none
deriving DecidableEq, Repr

/-- A raw reference object with all accepted field aliases.  A field
holding `none` is an absent key; `some .vnull` is a key present with a
JSON `null` value. -/
structure RefObj where
  ref_id : Option PyVal := none
  id : Option PyVal := none
  refId : Option PyVal := none
  number : Option PyVal := none
  raw_text : Option PyVal := none
  rawText : Option PyVal := none
  text : Option PyVal := none
  raw : Option PyVal := none
  raw_lines : Option (List PyVal) := none
  rawLines : Option (List PyVal) := none
  lines_raw : Option (List PyVal) := none
  rawLinesText : Option (List PyVal) := none
  line_start : Option PyVal := none
  start_line : Option PyVal := none
  startLine : Option PyVal := none
  lineStart : Option PyVal := none
  line_end : Option PyVal := none
  end_line : Option PyVal := none
  endLine : Option PyVal := none
  lineEnd : Option PyVal := none
  line_range : Option (List PyVal) := none
  lineRange : Option (List PyVal) := none
  lines : Option LinesObj := none
  line : Option PyVal := none
  parsed : Option ParsedOut := none
deriving DecidableEq, Repr

/-- One entry of the raw references list. -/
inductive RefEntry where
  | str (s : String)
  | obj (o : RefObj)
deriving DecidableEq, Repr

/-- `refs_extracted._first_present`: the value of the first key
present in the mapping, even when that value is JSON `null`. -/
def firstPresent : List (Option PyVal) → Option PyVal
  | [] => none
  | some v :: _ => some v
  | none :: rest => firstPresent rest

/-- `_first_present` over list-valued keys. -/
def firstPresentList : List (Option (List PyVal)) → Option (List PyVal)
  | [] => none
  | some v :: _ => some v
  | none :: rest => firstPresentList rest

/-- Python `a or b` on optional list values (an empty list is falsy). -/
def pyOrList (a b : Option (List PyVal)) : Option (List PyVal) :=
  match a with
  | some l => if l.isEmpty then b else some l
  | none => b

/-- The alias-resolution part of `refs_extracted._extract_line_range`
(lines 25–43): the raw `line_start`/`line_end` values. -/
def _resolve_line_values (obj : RefObj) : Option PyVal × Option PyVal :=
  let ls := firstPresent [obj.line_start, obj.start_line, obj.startLine, obj.lineStart]
  let le := firstPresent [obj.line_end, obj.end_line, obj.endLine, obj.lineEnd]
  let (ls, le) :=
    if ls.isNone && le.isNone then
      match pyOrList obj.line_range obj.lineRange with
      | some [a, b] => (some a, some b)
      | _ => (ls, le)
    else (ls, le)
  let (ls, le) :=
    if ls.isNone && le.isNone then
      match obj.lines with
      | some lobj =>
        (firstPresent [lobj.start, lobj.line_start, lobj.start_line],
          firstPresent [lobj.stop, lobj.line_end, lobj.end_line])
      | none => (ls, le)
    else (ls, le)
  if ls.isNone && le.isNone then
    match obj.line with
    | some v => if isNoneVal v then (ls, le) else (some v, some v)
    | none => (ls, le)
  else (ls, le)

/-- `refs_extracted._extract_line_range`: coerce both ends, swapping an
inverted non-negative range with a warning. -/
def _extract_line_range (obj : RefObj) (warnings : List String) :
    (Int × Int) × List String :=
  let vals := _resolve_line_values obj
  let start_i := coerceIntOpt vals.1 (-1)
  let end_i := coerceIntOpt vals.2 (-1)
  if 0 ≤ start_i ∧ 0 ≤ end_i ∧ end_i < start_i then
    ((end_i, start_i),
      warnings ++
        ["Swapped line range: start=" ++ toString start_i ++ " end=" ++ toString end_i])
  else ((start_i, end_i), warnings)

/-- `str(value).strip() or None` (`refs_extracted.clean`). -/
def cleanOpt (value : Option String) : Option String :=
  match value with
  | none => none
  | some s => if s.trim = "" then none else some s.trim

/-- `refs_extracted._normalize_parsed`: back-fill missing identifier
and year fields from the raw text, then clean every field.
`parsed = none` models a missing or non-dict `parsed` value. -/
def _normalize_parsed (raw_text : String) (parsed : Option ParsedOut) : ParsedOut :=
  let p := parsed.getD {}
  let doi := if pyTruthy p.doi then p.doi else extract_doi raw_text
  let url := if pyTruthy p.url then p.url else extract_first_url raw_text
  let arxiv :=
    if pyTruthy p.arxiv then p.arxiv
    else
      pyOrOpt (extract_arxiv_id raw_text)
        (pyOrOpt (extract_arxiv_id (if pyTruthy doi then pyStr doi else ""))
          (extract_arxiv_id (if pyTruthy url then pyStr url else "")))
  let year := if pyTruthy p.year then p.year else extract_year raw_text
  { doi := cleanOpt doi
    url := cleanOpt url
    arxiv := cleanOpt arxiv
    year := cleanOpt year
    title_guess := cleanOpt p.title_guess
    author_guess := cleanOpt p.author_guess }

/-- `refs_extracted._normalize_ref`: accept a bare string or an object
with aliased fields; returns the normalized reference (or `none` when
the entry is dropped) together with the updated warnings list. -/
def _normalize_ref (ref : RefEntry) (warnings : List String) :
    Option Ref0 × List String :=
  match ref with
  | .str s =>
    let raw_text := s.trim
    if raw_text = "" then (none, warnings)
    else
      (some
        { ref_id := ""
          line_start := -1
          line_end := -1
          raw_text := raw_text
          parsed := _normalize_parsed raw_text none }, warnings)
  | .obj obj =>
    let refIdVal := firstPresent [obj.ref_id, obj.id, obj.refId, obj.number]
    let ref_id_str :=
      match refIdVal with
      | some v => if isNoneVal v then "" else (pyStrVal v).trim
      | none => ""
    let rawTextVal := firstPresent [obj.raw_text, obj.rawText, obj.text, obj.raw]
    let rawTextIsNone :=
      match rawTextVal with
      | some v => isNoneVal v
      | none => true
    let rawTextVal :=
      if rawTextIsNone then
        match firstPresentList [obj.raw_lines, obj.rawLines, obj.lines_raw, obj.rawLinesText] with
        | some l =>
          some (PyVal.vstr (String.intercalate "\n"
            ((l.map pyStrVal).filter (fun x => x.trim ≠ ""))))
        | none => rawTextVal
      else rawTextVal
    let raw_text_str :=
      match rawTextVal with
      | some v => if isNoneVal v then "" else (pyStrVal v).trim
      | none => ""
    if raw_text_str = "" then
      (none, warnings ++ ["Skipped ref with no raw_text (ref_id=" ++ ref_id_str ++ ")"])
    else
      let lineRes := _extract_line_range obj warnings
      (some
        { ref_id := ref_id_str
          line_start := lineRes.1.1
          line_end := lineRes.1.2
          raw_text := raw_text_str
          parsed := _normalize_parsed raw_text_str obj.parsed }, lineRes.2)

/-- The normalization loop of `refs_extracted.load_refs_extracted`
(lines 156–160): normalize each entry, dropping the rejected ones. -/
def normalizeRefEntries (entries : List RefEntry) : List Ref0 × List String :=
  entries.foldl (fun acc e =>
    let res := _normalize_ref e acc.2
    match res.1 with
    | some r => (acc.1 ++ [r], res.2)
    | none => (acc.1, res.2)) ([], [])

/-! ## `apply_llm_decisions.py` — decision merge -/

/-- One externally supplied decision. -/
structure Decision where
  ref_id : Option String := none
  citekey : Option String := none
  reason : Option String := none
  confidence : Option ℚ := none
deriving DecidableEq, Repr

/-- The decisions document (`decisions`, `items` or `refs` list key). -/
structure DecisionsDoc where
  decisions : Option (List Decision) := none
  items : Option (List Decision) := none
  refs : Option (List Decision) := none

/-- Python `a or b` on optional decision lists (empty list is falsy),
for `decisions.get("items") or decisions.get("refs")`. -/
def pyOrDecList (a b : Option (List Decision)) : Option (List Decision) :=
  match a with
  | some l => if l.isEmpty then b else some l
  | none => b

/-- `apply_llm_decisions.ApplyResult`. -/
structure ApplyResult where
  updated : MatchResult
  warnings : List String
deriving DecidableEq, Repr

/-- `apply_llm_decisions._candidate_map`: first-wins map from trimmed
non-empty candidate citekeys to candidate dicts. -/
def _candidate_map (ref : RefOut) : List (String × Cand) :=
  ref.candidates.foldl (fun out c =>
    let ck := c.citekey.trim
    if ck ≠ "" && (dictGet out ck).isNone then out ++ [(ck, c)] else out) []

/-- `apply_llm_decisions._recompute_stats`: tally statuses from
scratch (a missing/blank/unknown status counts as `unmatched`; a
status naming another stats key increments that key). -/
def _recompute_stats (refs : List RefOut) : Stats :=
  refs.foldl (fun st r =>
    let st := { st with total := st.total + 1 }
    match r.match? with
    | none => { st with unmatched := st.unmatched + 1 }
    | some m =>
      let status := if m.status = "" then "unmatched" else m.status
      if status = "total" then { st with total := st.total + 1 }
      else if status = "matched" then { st with matched := st.matched + 1 }
      else if status = "needs_llm" then { st with needs_llm := st.needs_llm + 1 }
      else if status = "needs_review" then { st with needs_review := st.needs_review + 1 }
      else { st with unmatched := st.unmatched + 1 }) {}

/-- Lookup of the reference a decision addresses: the first entry
whose trimmed `ref_id` equals `rid` (the object `_index_refs_by_id`
maps `rid` to and mutates). -/
def findRefById (refs : List RefOut) (rid : String) : Option RefOut :=
  refs.find? (fun r => r.ref_id.trim == rid)

/-- In-place mutation of the dict `_index_refs_by_id` resolved:
replace the first entry with the given trimmed `ref_id`. -/
def replaceRefById : List RefOut → String → RefOut → List RefOut
  | [], _, _ => []
  | r :: rs, rid, newr =>
    if r.ref_id.trim = rid then newr :: rs else r :: replaceRefById rs rid newr

/-- The body of the decisions loop of
`apply_llm_decisions.apply_llm_decisions` (lines 71–130), one decision
at a time over the mutable refs list and warnings. -/
def applyOneDecision (refs : List RefOut) (warns : List String) (d : Decision) :
    Except String (List RefOut × List String) :=
  let rid := (pyStr d.ref_id).trim
  if rid = "" then .ok (refs, warns ++ ["Skipped decision with empty ref_id"])
  else
    match findRefById refs rid with
    | none =>
      .ok (refs, warns ++ ["Decision ref_id not found in match_result.json: " ++ rid])
    | some r =>
      let citekey :=
        match d.citekey with
        | some chosen =>
          let t := chosen.trim
          if t = "" ∨ t = "null" then none else some t
        | none => none
      let reason :=
        let t := (pyStr d.reason).trim
        if t = "" then none else some t
      let m0 := r.match?.getD {}
      match citekey with
      | none =>
        let m1 := { m0 with
          status := "unmatched", citekey := none, itemKey := none
          method := "llm", confidence := d.confidence.getD 0 }
        let m2 := match reason with | some s => { m1 with reason := some s } | none => m1
        .ok (replaceRefById refs rid { r with match? := some m2 }, warns)
      | some ck =>
        match dictGet (_candidate_map r) ck with
        | none =>
          .error ("Decision citekey not in candidates for ref_id=" ++ rid ++ ": " ++ ck)
        | some cand =>
          let m1 := { m0 with
            status := "matched", citekey := some ck
            itemKey := if cand.itemKey = "" then none else some cand.itemKey
            method := "llm", confidence := d.confidence.getD m0.confidence }
          let m2 := match reason with | some s => { m1 with reason := some s } | none => m1
          .ok (replaceRefById refs rid { r with match? := some m2 }, warns)

/-- The full decisions loop. -/
def processDecisions : List RefOut → List String → List Decision →
    Except String (List RefOut × List String)
  | refs, warns, [] => .ok (refs, warns)
  | refs, warns, d :: ds =>
    match applyOneDecision refs warns d with
    | .error e => .error e
    | .ok (refs₂, warns₂) => processDecisions refs₂ warns₂ ds

/-- `apply_llm_decisions.apply_llm_decisions`: merge decisions into a
match result, recomputing `stats` from scratch at the end.  Fatal
conditions are `Except.error` (Python `ValueError`). -/
def apply_llm_decisions (match_result : MatchResult) (decisions : DecisionsDoc) :
    Except String ApplyResult :=
  let decisionsList :=
    match decisions.decisions with
    | some l => some l
    | none => pyOrDecList decisions.items decisions.refs
  match decisionsList with
  | none => .error "llm_decisions.json missing required field: decisions[]"
  | some dl =>
    match processDecisions match_result.refs [] dl with
    | .error e => .error e
    | .ok (refs₂, warns) =>
      .ok
        { updated :=
            { meta := { match_result.meta with
                warnings := match_result.meta.warnings ++ warns }
              refs := refs₂
              stats := _recompute_stats refs₂ }
          warnings := warns }

/-! ## Claim-specific definitions and concrete fixtures -/

/-- The summary of the *last* item of the export whose (non-blank)
citekey is `ck` — the statement vocabulary for the duplicate-citekey
behaviour of `build_library_index`. -/
def lastSummary : List Item → String → Option Record
  | [], _ => none
  | i :: is, ck =>
    match lastSummary is ck with
    | some r => some r
    | none =>
      match summarize_item i with
      | some r => if r.citekey = ck then some r else none
      | none => none

/-- `Except` projection used to state results about
`apply_llm_decisions` decidably. -/
def applyOutcome (e : Except String ApplyResult) : Option ApplyResult :=
  match e with
  | .ok r => some r
  | .error _ => none

/-- C1 fixture: two export items sharing the citekey `a`. -/
def c1Item1 : Item := { citationKey := some ("a"), itemKey := some ("K1"), title := some ("First title") }

/-- C1 fixture: the later duplicate. -/
def c1Item2 : Item := { citationKey := some ("a"), itemKey := some ("K2"), title := some ("Second title") }

/-- C1 fixture: the export holding both duplicates. -/
def c1Data : BBTData := .arr [c1Item1, c1Item2]

/-- A sample library record (citekey `a`). -/
def sampleRecA : Record :=
  { citekey := "a", itemKey := "IA", title := "alpha title", year := none, authors := []
    doi := none, url := none, zotero_tags := [], pdf_attachments := [] }

/-- A sample library record (citekey `b`). -/
def sampleRecB : Record :=
  { citekey := "b", itemKey := "IB", title := "beta title", year := none, authors := []
    doi := none, url := none, zotero_tags := [], pdf_attachments := [] }

/-- C2 fixture: a two-record library with no identifier indices. -/
def c2Lib : LibraryIndex :=
  { records := [("a", sampleRecA), ("b", sampleRecB)], by_doi := [], by_arxiv := []
    by_url := [], total_items := 2, indexed_items := 2, warnings := [] }

/-- C2 fixture: a retrieval index scoring every query `[0.95, 0.91]`. -/
def c2Ridx : TfidfRetrievalIndex :=
  { citekeys := ["a", "b"], titles := ["alpha title", "beta title"]
    matrix := some (fun _ => [(0.95 : ℚ), 0.91]) }

/-- C2 fixture: a reference with no identifiers. -/
def c2Ref : Ref0 :=
  { ref_id := "r1", line_start := -1, line_end := -1, raw_text := "some query", parsed := {} }

/-- C2 fixture: the boosted top candidate (score 0.95). -/
def c2CandTop : Cand := _candidate_from_record sampleRecA 0.95

/-- C2 fixture: the boosted runner-up (score 0.91). -/
def c2CandSecond : Cand := _candidate_from_record sampleRecB 0.91

/-- An empty retrieval index (matrix `None`). -/
def noRidx : TfidfRetrievalIndex := { citekeys := [], titles := [], matrix := none }

/-- C3 fixture: a library whose DOI index maps `10.1/x` to `a` alone. -/
def c3Lib : LibraryIndex :=
  { records := [("a", sampleRecA)], by_doi := [("10.1/x", ["a"])], by_arxiv := []
    by_url := [], total_items := 1, indexed_items := 1, warnings := [] }

/-- C3 fixture: a reference carrying that DOI. -/
def c3Ref : Ref0 :=
  { ref_id := "r3", line_start := 1, line_end := 2, raw_text := "text"
    parsed := { doi := some ("10.1/x") } }

/-- C4 fixture: a library whose DOI index collides on `10.1/x`. -/
def c4Lib : LibraryIndex :=
  { records := [("a", sampleRecA), ("b", sampleRecB)], by_doi := [("10.1/x", ["a", "b"])]
    by_arxiv := [], by_url := [], total_items := 2, indexed_items := 2, warnings := [] }

/-- C4 fixture: a reference carrying the colliding DOI. -/
def c4Ref : Ref0 :=
  { ref_id := "r4", line_start := -1, line_end := -1, raw_text := "text"
    parsed := { doi := some ("10.1/x") } }

/-- C6/C7 fixture: the single offered candidate (citekey `x`). -/
def c6CandX : Cand :=
  _candidate_from_record { sampleRecA with citekey := "x", itemKey := "IX" } 0.5

/-- C6/C7 fixture: a resolved reference offering one candidate `x`. -/
def c6RefOut : RefOut :=
  { ref_id := "r1", line_start := -1, line_end := -1, raw_text := "t", parsed := {}
    match? := some { status := "needs_llm", method := "tfidf", confidence := 0.5 }
    candidates := [c6CandX] }

/-- C6 fixture: a match result holding that reference. -/
def c6Mr : MatchResult := { meta := {}, refs := [c6RefOut], stats := { total := 1, needs_llm := 1 } }

/-- C6 fixture: a decision choosing the literal string `null`. -/
def c6DocNull : DecisionsDoc :=
  { decisions := some [{ ref_id := some ("r1"), citekey := some ("null") }] }

/-- C6 fixture: a decision choosing the offered candidate `x`. -/
def c6DecisionHit : Decision :=
  { ref_id := some ("r1"), citekey := some ("x"), confidence := some 0.9 }

/-- C7 fixture: a match result whose cached `stats` are nonsense. -/
def c7Mr : MatchResult :=
  { meta := {}, refs := [c6RefOut], stats := { total := 99, matched := 42 } }

/-- C7 fixture: an empty decisions list. -/
def c7Doc : DecisionsDoc := { decisions := some [] }

/-- C8 witness fixture: an inverted non-negative line range. -/
def c8Obj : RefObj := { line_start := some (.vint 5), line_end := some (.vint 2) }

/-- C8 counterexample fixture: negative line values that are not -1. -/
def c8ObjNeg : RefObj := { line_start := some (.vint (-5)), line_end := some (.vint (-7)) }

/-- C9 fixture: a non-trivial retrieval index for the guard check. -/
def c9Idx : TfidfRetrievalIndex :=
  { citekeys := ["a"], titles := ["alpha title"], matrix := some (fun _ => [(1 : ℚ)]) }

/-- C10 witness fixture: a bare-string reference entry. -/
def c10Text : String := " Smith 2019 "

/-- C6 counterexample expectation (verdict): the decision is absorbed
as a null-citekey decision. -/
def c6VerdictNull : MatchVerdict :=
  { status := "unmatched", citekey := none, itemKey := none
    method := "llm", confidence := 0 }

/-- C6 counterexample expectation: status `unmatched`, not a fatal
error. -/
def c6ResNull : ApplyResult :=
  { updated :=
      { meta := {}
        refs := [{ c6RefOut with match? := some c6VerdictNull }]
        stats := { total := 1, unmatched := 1 } }
    warnings := [] }

/-- C7 witness expectation: an empty decision list leaves the refs
unchanged and recomputes `stats` from them. -/
def c7Res : ApplyResult :=
  { updated := { meta := {}, refs := [c6RefOut], stats := { total := 1, needs_llm := 1 } }
    warnings := [] }

/-! ## Helper lemmas -/

theorem dictGet_dictSet {α : Type} (m : List (String × α)) (k ck : String) (v : α) :
    dictGet (dictSet m k v) ck = if k = ck then some v else dictGet m ck := by
  induction m with
  | nil => simp [dictSet, dictGet]
  | cons hd tl ih =>
    obtain ⟨k₁, v₁⟩ := hd
    by_cases h₁ : k₁ = k
    · subst h₁
      simp [dictSet, dictGet]
      by_cases h₂ : k₁ = ck <;> simp [h₂]
    · simp only [dictSet, if_neg h₁, dictGet]
      by_cases h₂ : k₁ = ck
      · subst h₂
        have : ¬ k = k₁ := fun h => h₁ h.symm
        simp [dictGet, this]
      · simp [dictGet, h₂, ih]

theorem buildStep_records (st : BuildState) (item : Item) :
    (buildStep st item).records =
      match summarize_item item with
      | some r => dictSet st.records r.citekey r
      | none => st.records := by
  cases h : summarize_item item <;> simp only [buildStep, h]
  split <;> (try split) <;> (repeat' split) <;> rfl

theorem records_foldl (items : List Item) (st : BuildState) (ck : String) :
    dictGet (items.foldl buildStep st).records ck =
      match lastSummary items ck with
      | some r => some r
      | none => dictGet st.records ck := by
  induction items generalizing st with
  | nil => simp [lastSummary]
  | cons i is ih =>
    simp only [List.foldl_cons, lastSummary]
    rw [ih]
    cases hlast : lastSummary is ck
    · simp only []
      rw [buildStep_records]
      cases hsum : summarize_item i
      · rfl
      · rename_i r
        rw [dictGet_dictSet]
        by_cases hck : r.citekey = ck <;> simp [hck]
    · rfl

/-! ## C1 — duplicate citekeys in `build_library_index` -/

/-- C1 (counterexample): for the export `c1Data`, whose two items both
carry the non-empty citekey `a`, `build_library_index` does *not* keep
the record summarized from the first item — `records[citekey]` is the
summary of the *second* occurrence, so the claim "first occurrence
wins, later duplicates are silently dropped" is false on the code. -/
theorem build_library_index_first_occurrence_loses :
    summarize_item c1Item1 ≠ none ∧
    summarize_item c1Item1 ≠ summarize_item c1Item2 ∧
    dictGet (build_library_index c1Data).records ("a") ≠ summarize_item c1Item1 ∧
    dictGet (build_library_index c1Data).records ("a") = summarize_item c1Item2 := by
  with_unfolding_all decide

/-- C1 (amended): for every library export and every citekey,
`build_library_index` keeps the summary of the *last* item with that
citekey — a later duplicate silently overwrites the earlier record. -/
theorem build_library_index_last_occurrence_wins (data : BBTData) (ck : String) :
    dictGet (build_library_index data).records ck =
      lastSummary (iter_library_items data) ck := by
  show dictGet ((iter_library_items data).foldl buildStep
      { records := [], by_doi := [], by_arxiv := [], by_url := [] }).records ck = _
  rw [records_foldl]
  cases lastSummary (iter_library_items data) ck <;> simp [dictGet]

/-! ## C5 — `extract_year` on the specified example -/

/-- C5: `extract_year` on
`"Smith, J. (2019). Title. Retrieved 2023 from http://x"` returns
`"2019"`: the parenthesized publication year wins and the year after
`Retrieved` is excluded as an access date. -/
theorem extract_year_parenthetical_beats_access_year :
    extract_year ("Smith, J. (2019). Title. Retrieved 2023 from http://x") =
      some ("2019") := by
  with_unfolding_all decide

/-! ## C8 — line-range normalization -/

/-- C8 (counterexample): the source entry
`{line_start: -5, line_end: -7}` is inverted, yet `_extract_line_range`
returns `(-5, -7)` unswapped with no warning, and neither value is the
unknown marker `-1` — so the claimed invariant
`line_end >= line_start` (with `-1` for unknown) fails as stated. -/
theorem extract_line_range_negative_inverted_kept :
    _extract_line_range c8ObjNeg [] = ((-5, -7), []) ∧
    ¬((-7 : Int) ≥ -5 ∨ (-5 : Int) = -1 ∨ (-7 : Int) = -1) := by
  with_unfolding_all decide

/-- C8 (amended): for every source entry, whenever both normalized line
values are non-negative the invariant `line_start ≤ line_end` holds;
and whenever the source supplies a non-negative inverted range the two
values are swapped and a warning is recorded.  (Negative values other
than the defaulted `-1` pass through unchanged.) -/
theorem extract_line_range_invariant (obj : RefObj) (ws : List String) :
    (0 ≤ (_extract_line_range obj ws).1.1 → 0 ≤ (_extract_line_range obj ws).1.2 →
      (_extract_line_range obj ws).1.1 ≤ (_extract_line_range obj ws).1.2) ∧
    (0 ≤ coerceIntOpt (_resolve_line_values obj).1 (-1) →
      0 ≤ coerceIntOpt (_resolve_line_values obj).2 (-1) →
      coerceIntOpt (_resolve_line_values obj).2 (-1) <
        coerceIntOpt (_resolve_line_values obj).1 (-1) →
      _extract_line_range obj ws =
        ((coerceIntOpt (_resolve_line_values obj).2 (-1),
          coerceIntOpt (_resolve_line_values obj).1 (-1)),
          ws ++ ["Swapped line range: start=" ++
            toString (coerceIntOpt (_resolve_line_values obj).1 (-1)) ++ " end=" ++
            toString (coerceIntOpt (_resolve_line_values obj).2 (-1))])) := by
  constructor
  · intro h1 h2
    simp only [_extract_line_range] at h1 h2 ⊢
    split_ifs at h1 h2 ⊢ with hcond <;> simp only at h1 h2 ⊢ <;> omega
  · intro h1 h2 h3
    simp only [_extract_line_range]
    rw [if_pos ⟨h1, h2, h3⟩]

/-- C8 (witness): the amended theorem applied to the concrete inverted
range `{line_start: 5, line_end: 2}`. -/
theorem extract_line_range_invariant_witness :
    (0 ≤ coerceIntOpt (_resolve_line_values c8Obj).1 (-1) ∧
      0 ≤ coerceIntOpt (_resolve_line_values c8Obj).2 (-1) ∧
      coerceIntOpt (_resolve_line_values c8Obj).2 (-1) <
        coerceIntOpt (_resolve_line_values c8Obj).1 (-1)) ∧
    _extract_line_range c8Obj [] =
      ((2, 5), ["Swapped line range: start=5 end=2"]) := by
  refine ⟨by with_unfolding_all decide, ?_⟩
  have h := (extract_line_range_invariant c8Obj []).2
    (by with_unfolding_all decide) (by with_unfolding_all decide)
    (by with_unfolding_all decide)
  rw [h]
  with_unfolding_all decide

/-! ## C10 — bare-string reference entries -/

/-- C10: a bare-string entry with non-blank trimmed text becomes a
Reference with empty `ref_id`, unknown line range, `raw_text` the
trimmed string, and parsed fields back-filled by extraction from that
text; a blank entry is dropped. -/
theorem normalize_ref_bare_string (s : String) (ws : List String) :
    (s.trim ≠ "" →
      _normalize_ref (.str s) ws =
        (some { ref_id := "", line_start := -1, line_end := -1, raw_text := s.trim
                parsed := _normalize_parsed s.trim none }, ws) ∧
      (_normalize_parsed s.trim none).doi = cleanOpt (extract_doi s.trim) ∧
      (_normalize_parsed s.trim none).url = cleanOpt (extract_first_url s.trim) ∧
      (_normalize_parsed s.trim none).arxiv =
        cleanOpt (pyOrOpt (extract_arxiv_id s.trim)
          (pyOrOpt
            (extract_arxiv_id
              (if pyTruthy (extract_doi s.trim) then pyStr (extract_doi s.trim) else ""))
            (extract_arxiv_id
              (if pyTruthy (extract_first_url s.trim) then pyStr (extract_first_url s.trim)
                else "")))) ∧
      (_normalize_parsed s.trim none).year = cleanOpt (extract_year s.trim) ∧
      (_normalize_parsed s.trim none).title_guess = none ∧
      (_normalize_parsed s.trim none).author_guess = none) ∧
    (s.trim = "" → _normalize_ref (.str s) ws = (none, ws)) := by
  constructor
  · intro h
    refine ⟨?_, rfl, rfl, rfl, rfl, rfl, rfl⟩
    simp only [_normalize_ref, if_neg h]
  · intro h
    simp only [_normalize_ref, if_pos h]

/-- C10 (witness): the bare-string entry `" Smith 2019 "` is accepted
with trimmed raw text and a back-filled year. -/
theorem normalize_ref_bare_string_witness :
    (c10Text.trim ≠ "") ∧
    _normalize_ref (.str c10Text) [] =
      (some { ref_id := "", line_start := -1, line_end := -1, raw_text := "Smith 2019"
              parsed := { year := some ("2019") } }, []) := by
  have h : c10Text.trim ≠ "" := by with_unfolding_all decide
  refine ⟨h, ?_⟩
  rw [((normalize_ref_bare_string c10Text []).1 h).1]
  with_unfolding_all decide

/-! ## C7 — stats always recomputed after decision merge -/

/-- C7: whatever `stats` the input carried, after a successful
`apply_llm_decisions` the result's `stats` equal the tally recomputed
from scratch over the current per-reference statuses. -/
theorem apply_llm_decisions_stats_recomputed (mr : MatchResult) (ds : DecisionsDoc)
    (res : ApplyResult) (h : apply_llm_decisions mr ds = .ok res) :
    res.updated.stats = _recompute_stats res.updated.refs := by
  simp only [apply_llm_decisions] at h
  rcases hds : (match ds.decisions with
    | some l => some l
    | none => pyOrDecList ds.items ds.refs) with _ | dl
  · rw [hds] at h; simp only [] at h; cases h
  · rw [hds] at h; simp only [] at h
    rcases hpd : processDecisions mr.refs [] dl with e | p
    · rw [hpd] at h; simp only [] at h; cases h
    · rw [hpd] at h
      obtain ⟨refs₂, warns⟩ := p
      simp only [] at h
      injection h with h'
      subst h'
      rfl

/-- C7 (witness): merging an empty decision list into a match result
whose cached stats are nonsense yields freshly recomputed stats. -/
theorem apply_llm_decisions_stats_recomputed_witness :
    apply_llm_decisions c7Mr c7Doc = .ok c7Res ∧
    c7Res.updated.stats = _recompute_stats c7Res.updated.refs := by
  have h : apply_llm_decisions c7Mr c7Doc = .ok c7Res := by
    with_unfolding_all exact rfl
  exact ⟨h, apply_llm_decisions_stats_recomputed c7Mr c7Doc c7Res h⟩

/-! ## C6 — decision citekeys must come from the candidate list -/

theorem findRefById_replaceRefById (refs : List RefOut) (rid : String) (r newr : RefOut)
    (hfind : findRefById refs rid = some r) (hid : newr.ref_id = r.ref_id) :
    findRefById (replaceRefById refs rid newr) rid = some newr := by
  induction refs with
  | nil => simp [findRefById, List.find?] at hfind
  | cons r₁ rs ih =>
    by_cases hhit : r₁.ref_id.trim = rid
    · have hbeq : (r₁.ref_id.trim == rid) = true := by simpa using hhit
      have hfound : r₁ = r := by
        simp only [findRefById, List.find?, hbeq] at hfind
        exact Option.some.inj hfind
      subst hfound
      have hbeq₂ : (newr.ref_id.trim == rid) = true := by rw [hid]; exact hbeq
      simp only [replaceRefById, if_pos hhit, findRefById, List.find?, hbeq₂]
    · have hbeq : (r₁.ref_id.trim == rid) = false := by simpa using hhit
      have hfind' : findRefById rs rid = some r := by
        simpa only [findRefById, List.find?, hbeq] using hfind
      simp only [replaceRefById, if_neg hhit, findRefById, List.find?, hbeq]
      exact ih hfind'

/-- C6 (counterexample): the decision `{ref_id: r1, citekey: "null"}`
has a non-null, non-empty citekey that is absent from the reference's
candidate list, yet `apply_llm_decisions` does not raise — the string
`null` is treated as a null choice and the match becomes `unmatched`. -/
theorem apply_llm_decisions_null_citekey_not_fatal :
    applyOutcome (apply_llm_decisions c6Mr c6DocNull) = some c6ResNull ∧
    dictGet (_candidate_map c6RefOut) ("null") = none ∧
    ("null" : String) ≠ "" := by
  with_unfolding_all decide

/-- C6 (amended): for a decision that locates a reference and carries
a non-null citekey whose trimmed value is neither empty nor the
literal string `null`: `apply_llm_decisions` is a fatal error exactly
when that citekey is not among the reference's recorded candidates;
when it is offered, the reference's match is overwritten to status
`matched` with method `llm` and that citekey. -/
theorem apply_llm_decisions_citekey_validated
    (mr : MatchResult) (d : Decision) (r : RefOut) (ckRaw : String)
    (hrid : (pyStr d.ref_id).trim ≠ "")
    (hfind : findRefById mr.refs ((pyStr d.ref_id).trim) = some r)
    (hck : d.citekey = some ckRaw)
    (hne : ckRaw.trim ≠ "") (hnull : ckRaw.trim ≠ "null") :
    (dictGet (_candidate_map r) ckRaw.trim = none →
      ∃ msg, apply_llm_decisions mr { decisions := some [d] } = .error msg) ∧
    (∀ c, dictGet (_candidate_map r) ckRaw.trim = some c →
      ∃ res, apply_llm_decisions mr { decisions := some [d] } = .ok res ∧
        ∃ r₂, findRefById res.updated.refs ((pyStr d.ref_id).trim) = some r₂ ∧
          ∃ m, r₂.match? = some m ∧ m.status = "matched" ∧ m.method = "llm" ∧
            m.citekey = some ckRaw.trim) := by
  have hcond : ¬(ckRaw.trim = "" ∨ ckRaw.trim = "null") := by
    rintro (h | h) <;> [exact hne h; exact hnull h]
  constructor
  · intro hmiss
    refine ⟨"Decision citekey not in candidates for ref_id=" ++ (pyStr d.ref_id).trim ++
      ": " ++ ckRaw.trim, ?_⟩
    simp only [apply_llm_decisions, processDecisions, applyOneDecision, if_neg hrid,
      hfind, hck, if_neg hcond, hmiss]
  · intro c hhit
    simp only [apply_llm_decisions, processDecisions, applyOneDecision, if_neg hrid,
      hfind, hck, if_neg hcond, hhit]
    refine ⟨_, rfl, ?_⟩
    rcases hreason : (if (pyStr d.reason).trim = "" then none
      else some ((pyStr d.reason).trim) : Option String) with _ | s <;>
      simp only [hreason]
    · refine ⟨_, findRefById_replaceRefById _ _ r _ hfind rfl, ?_⟩
      exact ⟨_, rfl, rfl, rfl, rfl⟩
    · refine ⟨_, findRefById_replaceRefById _ _ r _ hfind rfl, ?_⟩
      exact ⟨_, rfl, rfl, rfl, rfl⟩

/-- C6 (witness): the decision choosing the offered candidate `x` for
reference `r1` merges successfully into a `matched`/`llm` verdict. -/
theorem apply_llm_decisions_citekey_validated_witness :
    ((pyStr c6DecisionHit.ref_id).trim ≠ "") ∧
    (findRefById c6Mr.refs ((pyStr c6DecisionHit.ref_id).trim) = some c6RefOut) ∧
    (∃ res, apply_llm_decisions c6Mr { decisions := some [c6DecisionHit] } = .ok res ∧
      ∃ r₂, findRefById res.updated.refs ((pyStr c6DecisionHit.ref_id).trim) = some r₂ ∧
        ∃ m, r₂.match? = some m ∧ m.status = "matched" ∧ m.method = "llm" ∧
          m.citekey = some ("x")) := by
  refine ⟨by with_unfolding_all decide, by with_unfolding_all decide, ?_⟩
  have h := (apply_llm_decisions_citekey_validated c6Mr c6DecisionHit c6RefOut ("x")
    (by with_unfolding_all decide) (by with_unfolding_all decide) rfl
    (by with_unfolding_all decide) (by with_unfolding_all decide)).2
  obtain ⟨res, h1, r₂, h2, m, h3, h4, h5, h6⟩ :=
    h c6CandX (by with_unfolding_all decide)
  have htrim : ("x" : String).trim = "x" := by with_unfolding_all decide
  rw [htrim] at h6
  exact ⟨res, h1, r₂, h2, m, h3, h4, h5, h6⟩

/-! ## C9 — empty query / empty library -/

theorem det_match_empty_indices (ref : Ref0) (lib : LibraryIndex)
    (h1 : lib.by_doi = []) (h2 : lib.by_arxiv = []) (h3 : lib.by_url = []) :
    _deterministic_match ref lib = (none, [], 0) := by
  unfold _deterministic_match
  rw [h1, h2, h3]
  rcases normalize_doi ref.parsed.doi with _ | d <;>
    rcases arxivNormOf ref with _ | a <;>
      rcases normalize_url ref.parsed.url with _ | u <;>
        simp [dictGet, ite_self]

/-- C9: `retrieve_top_k` returns `[]` (never an error) for a blank or
whitespace-only query, an empty citekey list, or a missing matrix; and
against the empty library every reference resolves to `unmatched` with
method `none`, confidence 0 and no candidates. -/
theorem retrieve_top_k_empty_guard :
    (∀ (idx : TfidfRetrievalIndex) (q : String) (k : Int),
      q.trim = "" ∨ idx.citekeys = [] ∨ idx.matrix = none →
      retrieve_top_k idx q k = []) ∧
    (∀ (score : String → List ℚ) (params : MatchParams) (ref : Ref0),
      (processRef (build_library_index (.arr []))
        (build_tfidf_index score (build_library_index (.arr [])).records) params
        ref).match? =
        some { status := "unmatched", citekey := none, itemKey := none
               method := "none", confidence := 0, reason := none } ∧
      (processRef (build_library_index (.arr []))
        (build_tfidf_index score (build_library_index (.arr [])).records) params
        ref).candidates = []) := by
  have hguard : ∀ (idx : TfidfRetrievalIndex) (q : String) (k : Int),
      q.trim = "" ∨ idx.citekeys = [] ∨ idx.matrix = none →
      retrieve_top_k idx q k = [] := by
    intro idx q k h
    rcases h with h | h | h <;>
      simp [retrieve_top_k, h]
  refine ⟨hguard, ?_⟩
  intro score params ref
  have hdm := det_match_empty_indices ref (build_library_index (.arr [])) rfl rfl rfl
  have hret : ∀ (q : String) (k : Int),
      retrieve_top_k (build_tfidf_index score (build_library_index (.arr [])).records) q
        k = [] := by
    intro q k
    exact hguard _ q k (Or.inr (Or.inl rfl))
  simp only [processRef, hdm]
  simp only [lexVerdict, lexCands, hret, List.filterMap_nil, sortCandidates, mkRefOut]
  exact ⟨trivial, trivial⟩

/-- C9 (witness): the guard applied at a concrete whitespace-only
query and non-empty index. -/
theorem retrieve_top_k_empty_guard_witness :
    ((("  " : String).trim = "" ∨ c9Idx.citekeys = [] ∨ c9Idx.matrix = none)) ∧
    retrieve_top_k c9Idx ("  ") 5 = [] := by
  have h : (("  " : String).trim = "" ∨ c9Idx.citekeys = [] ∨ c9Idx.matrix = none) :=
    Or.inl (by with_unfolding_all decide)
  exact ⟨h, retrieve_top_k_empty_guard.1 c9Idx ("  ") 5 h⟩

/-! ## C3 / C4 — the deterministic tier -/

theorem processRef_det (library : LibraryIndex) (ridx : TfidfRetrievalIndex)
    (params : MatchParams) (ref : Ref0) (m : String) (cks : List String) (cf : ℚ)
    (h : _deterministic_match ref library = (some m, cks, cf)) :
    processRef library ridx params ref = mkRefOut ref (detVerdict library m cks cf) := by
  simp only [processRef, h]

theorem det_match_conf (ref : Ref0) (lib : LibraryIndex) (m : String)
    (cks : List String) (cf : ℚ)
    (h : _deterministic_match ref lib = (some m, cks, cf)) :
    cf = if cks.length = 1 then (0.99 : ℚ) else 0.80 := by
  simp only [_deterministic_match] at h
  rcases hd : (match normalize_doi ref.parsed.doi with
      | some d => if d = "" then none else dictGet lib.by_doi d
      | none => (none : Option (List String))) with _ | cks₁
  all_goals rw [hd] at h; simp only [] at h
  case' some =>
    simp only [Prod.mk.injEq] at h
    obtain ⟨h1, h2, h3⟩ := h
    subst h2
    exact h3.symm
  rcases ha : (match arxivNormOf ref with
      | some a => if a = "" then none else dictGet lib.by_arxiv a
      | none => (none : Option (List String))) with _ | cks₂
  all_goals rw [ha] at h; simp only [] at h
  case' some =>
    simp only [Prod.mk.injEq] at h
    obtain ⟨h1, h2, h3⟩ := h
    subst h2
    exact h3.symm
  rcases hu : (match normalize_url ref.parsed.url with
      | some u => if u = "" then none else dictGet lib.by_url u
      | none => (none : Option (List String))) with _ | cks₃
  all_goals rw [hu] at h; simp only [] at h
  · simp only [Prod.mk.injEq] at h
    exact absurd h.1 (by simp)
  · simp only [Prod.mk.injEq] at h
    obtain ⟨h1, h2, h3⟩ := h
    subst h2
    exact h3.symm

/-- C3: the deterministic tier checks the normalized DOI, then the
arXiv id, then the normalized URL, in that priority; on the first
identifier type whose reverse index maps the normalized value to
exactly one citekey, the reference is `matched` with method equal to
that identifier type and confidence 0.99. -/
theorem deterministic_tier_priority (lib : LibraryIndex) (ridx : TfidfRetrievalIndex)
    (params : MatchParams) (ref : Ref0) :
    (∀ d ck, normalize_doi ref.parsed.doi = some d → d ≠ "" →
      dictGet lib.by_doi d = some [ck] →
      ∀ m, (processRef lib ridx params ref).match? = some m →
        m.status = "matched" ∧ m.method = "doi" ∧ m.confidence = 0.99) ∧
    ((∀ d, normalize_doi ref.parsed.doi = some d →
        d = "" ∨ dictGet lib.by_doi d = none) →
      ∀ a ck, arxivNormOf ref = some a → a ≠ "" →
      dictGet lib.by_arxiv a = some [ck] →
      ∀ m, (processRef lib ridx params ref).match? = some m →
        m.status = "matched" ∧ m.method = "arxiv" ∧ m.confidence = 0.99) ∧
    ((∀ d, normalize_doi ref.parsed.doi = some d →
        d = "" ∨ dictGet lib.by_doi d = none) →
      (∀ a, arxivNormOf ref = some a → a = "" ∨ dictGet lib.by_arxiv a = none) →
      ∀ u ck, normalize_url ref.parsed.url = some u → u ≠ "" →
      dictGet lib.by_url u = some [ck] →
      ∀ m, (processRef lib ridx params ref).match? = some m →
        m.status = "matched" ∧ m.method = "url" ∧ m.confidence = 0.99) := by
  have hdoiMissHit : ∀ (P : Prop),
      (∀ d, normalize_doi ref.parsed.doi = some d →
        d = "" ∨ dictGet lib.by_doi d = none) →
      ((match normalize_doi ref.parsed.doi with
        | some d => if d = "" then none else dictGet lib.by_doi d
        | none => (none : Option (List String))) = none → P) → P := by
    intro P hmiss hk
    apply hk
    rcases hd : normalize_doi ref.parsed.doi with _ | d
    · rfl
    · rcases hmiss d hd with h | h <;> simp [h]
  refine ⟨?_, ?_, ?_⟩
  · intro d ck hd hne hhit m hm
    have hdm : _deterministic_match ref lib = (some ("doi"), [ck], 0.99) := by
      unfold _deterministic_match
      rw [hd]
      simp [hne, hhit]
    rw [processRef_det lib ridx params ref _ _ _ hdm] at hm
    simp only [mkRefOut, detVerdict, List.length_singleton, if_pos] at hm
    simp only [Option.some.injEq] at hm
    subst hm
    exact ⟨rfl, rfl, rfl⟩
  · intro hmiss a ck ha hane hhit m hm
    have hdm : _deterministic_match ref lib = (some ("arxiv"), [ck], 0.99) := by
      unfold _deterministic_match
      refine hdoiMissHit _ hmiss (fun h => ?_)
      rw [h, ha]
      simp [hane, hhit]
    rw [processRef_det lib ridx params ref _ _ _ hdm] at hm
    simp only [mkRefOut, detVerdict, List.length_singleton, if_pos] at hm
    simp only [Option.some.injEq] at hm
    subst hm
    exact ⟨rfl, rfl, rfl⟩
  · intro hmiss hamiss u ck hu hune hhit m hm
    have harxMiss : (match arxivNormOf ref with
        | some a => if a = "" then none else dictGet lib.by_arxiv a
        | none => (none : Option (List String))) = none := by
      rcases ha : arxivNormOf ref with _ | a
      · rfl
      · rcases hamiss a ha with h | h <;> simp [h]
    have hdm : _deterministic_match ref lib = (some ("url"), [ck], 0.99) := by
      unfold _deterministic_match
      refine hdoiMissHit _ hmiss (fun h => ?_)
      rw [h, harxMiss, hu]
      simp [hune, hhit]
    rw [processRef_det lib ridx params ref _ _ _ hdm] at hm
    simp only [mkRefOut, detVerdict, List.length_singleton, if_pos] at hm
    simp only [Option.some.injEq] at hm
    subst hm
    exact ⟨rfl, rfl, rfl⟩

/-- C3 (witness): a reference whose DOI normalizes to the single
library entry `10.1/x` is matched deterministically with method `doi`
and confidence 0.99. -/
theorem deterministic_tier_priority_witness :
    (normalize_doi c3Ref.parsed.doi = some ("10.1/x")) ∧
    (("10.1/x" : String) ≠ "") ∧
    (dictGet c3Lib.by_doi ("10.1/x") = some ["a"]) ∧
    (∀ m, (processRef c3Lib noRidx defaultMatchParams c3Ref).match? = some m →
      m.status = "matched" ∧ m.method = "doi" ∧ m.confidence = 0.99) := by
  refine ⟨by with_unfolding_all decide, by with_unfolding_all decide,
    by with_unfolding_all decide, ?_⟩
  exact (deterministic_tier_priority c3Lib noRidx defaultMatchParams c3Ref).1
    ("10.1/x") ("a") (by with_unfolding_all decide) (by with_unfolding_all decide)
    (by with_unfolding_all decide)

/-- C4: when the first-hit identifier maps to more than one citekey,
the verdict is `needs_llm` if at least one colliding record is
surfaced as a candidate and `needs_review` otherwise, confidence is
0.80, no citekey is assigned, every colliding record is emitted as a
candidate, and all emitted candidates share the score 1.0. -/
theorem deterministic_collision_ambiguous (lib : LibraryIndex)
    (ridx : TfidfRetrievalIndex) (params : MatchParams) (ref : Ref0) (m : String)
    (cks : List String) (cf : ℚ)
    (hdm : _deterministic_match ref lib = (some m, cks, cf))
    (hlen : 1 < cks.length) :
    ∀ mv, (processRef lib ridx params ref).match? = some mv →
      ((processRef lib ridx params ref).candidates ≠ [] → mv.status = "needs_llm") ∧
      ((processRef lib ridx params ref).candidates = [] → mv.status = "needs_review") ∧
      mv.confidence = 0.80 ∧ mv.citekey = none ∧
      (∀ ck ∈ cks, ∀ r, dictGet lib.records ck = some r →
        _candidate_from_record r 1 ∈ (processRef lib ridx params ref).candidates) ∧
      (∀ c ∈ (processRef lib ridx params ref).candidates, c.score = 1) := by
  intro mv hmv
  have hcf : cf = 0.80 := by
    rw [det_match_conf ref lib m cks cf hdm]
    rw [if_neg (by omega)]
  have hne1 : ¬ cks.length = 1 := by omega
  rw [processRef_det lib ridx params ref _ _ _ hdm] at hmv ⊢
  simp only [mkRefOut, detVerdict, if_neg hne1] at hmv ⊢
  simp only [Option.some.injEq] at hmv
  subst hmv
  refine ⟨?_, ?_, hcf, rfl, ?_, ?_⟩
  · intro hne
    simp only [List.isEmpty_iff]
    rw [if_neg ?_]
    intro hempty
    exact hne hempty
  · intro hempty
    simp only [List.isEmpty_iff]
    rw [if_pos hempty]
  · intro ck hck r hr
    refine List.mem_filterMap.mpr ⟨ck, hck, ?_⟩
    rw [hr]
    rfl
  · intro c hc
    obtain ⟨ck, _, hmap⟩ := List.mem_filterMap.mp hc
    rcases hr : dictGet lib.records ck with _ | r
    · rw [hr] at hmap; cases hmap
    · rw [hr] at hmap
      simp only [Option.map_some', Option.some.injEq] at hmap
      subst hmap
      rfl

/-- C4 (witness): a DOI colliding on two citekeys yields `needs_llm`,
confidence 0.80, no citekey, and both records as score-1.0 candidates. -/
theorem deterministic_collision_ambiguous_witness :
    (_deterministic_match c4Ref c4Lib = (some ("doi"), ["a", "b"], 0.80)) ∧
    (1 < (["a", "b"] : List String).length) ∧
    (∀ mv, (processRef c4Lib noRidx defaultMatchParams c4Ref).match? = some mv →
      mv.status = "needs_llm" ∧ mv.confidence = 0.80 ∧ mv.citekey = none ∧
      _candidate_from_record sampleRecA 1 ∈
        (processRef c4Lib noRidx defaultMatchParams c4Ref).candidates ∧
      _candidate_from_record sampleRecB 1 ∈
        (processRef c4Lib noRidx defaultMatchParams c4Ref).candidates) := by
  have hdm : _deterministic_match c4Ref c4Lib = (some ("doi"), ["a", "b"], 0.80) := by
    with_unfolding_all decide
  refine ⟨hdm, by decide, ?_⟩
  intro mv hmv
  have h := deterministic_collision_ambiguous c4Lib noRidx defaultMatchParams c4Ref
    ("doi") (["a", "b"]) 0.80 hdm (by decide) mv hmv
  refine ⟨h.1 (by with_unfolding_all decide), h.2.2.1, h.2.2.2.1, ?_, ?_⟩
  · exact h.2.2.2.2.1 ("a") (by decide) sampleRecA (by with_unfolding_all decide)
  · exact h.2.2.2.2.1 ("b") (by decide) sampleRecB (by with_unfolding_all decide)

/-! ## C2 — lexical tier classification -/

theorem candKeyGe_iff {a b : Cand} :
    candKeyGe a b = true ↔
      (b.score < a.score ∨ (a.score = b.score ∧ ¬ a.citekey < b.citekey)) := by
  simp [candKeyGe]

theorem candKeyGt_iff {a b : Cand} :
    candKeyGt a b = true ↔
      (b.score < a.score ∨ (a.score = b.score ∧ b.citekey < a.citekey)) := by
  simp [candKeyGt]

theorem candKeyGt_ge {a b : Cand} (h : candKeyGt a b = true) :
    candKeyGe a b = true := by
  rw [candKeyGe_iff]
  rcases candKeyGt_iff.mp h with h' | ⟨h1, h2⟩
  · exact Or.inl h'
  · exact Or.inr ⟨h1, lt_asymm h2⟩

theorem candKeyGt_false_ge {a b : Cand} (h : candKeyGt a b = false) :
    candKeyGe b a = true := by
  have h' : ¬(b.score < a.score ∨ (a.score = b.score ∧ b.citekey < a.citekey)) := by
    rw [← candKeyGt_iff]
    simp [h]
  push_neg at h'
  rw [candKeyGe_iff]
  rcases lt_trichotomy a.score b.score with hlt | heq | hgt
  · exact Or.inl hlt
  · exact Or.inr ⟨heq.symm, h'.2 heq⟩
  · exact absurd h'.1 (not_le.mpr hgt)

theorem candKeyGe_trans {a b c : Cand} (h1 : candKeyGe a b = true)
    (h2 : candKeyGe b c = true) : candKeyGe a c = true := by
  rw [candKeyGe_iff] at h1 h2 ⊢
  rcases h1 with h1 | ⟨h1e, h1k⟩ <;> rcases h2 with h2 | ⟨h2e, h2k⟩
  · exact Or.inl (lt_trans h2 h1)
  · exact Or.inl (h2e ▸ h1)
  · exact Or.inl (h1e ▸ h2)
  · exact Or.inr ⟨h1e.trans h2e, fun hlt =>
      absurd hlt (not_lt.mpr (le_trans (not_lt.mp h2k) (not_lt.mp h1k)))⟩

theorem candKeyGe_score {a b : Cand} (h : candKeyGe a b = true) :
    b.score ≤ a.score := by
  rcases candKeyGe_iff.mp h with h' | ⟨h1, _⟩
  · exact le_of_lt h'
  · exact le_of_eq h1.symm

theorem mem_insertCandDesc {x z : Cand} {l : List Cand} :
    z ∈ insertCandDesc x l ↔ z = x ∨ z ∈ l := by
  induction l with
  | nil => simp [insertCandDesc]
  | cons y ys ih =>
    simp only [insertCandDesc]
    split
    · simp only [List.mem_cons, ih]
      tauto
    · simp only [List.mem_cons]

theorem pairwise_insertCandDesc {x : Cand} {l : List Cand}
    (h : l.Pairwise (fun a b => candKeyGe a b = true)) :
    (insertCandDesc x l).Pairwise (fun a b => candKeyGe a b = true) := by
  induction l with
  | nil => simp [insertCandDesc]
  | cons y ys ih =>
    rw [List.pairwise_cons] at h
    obtain ⟨hy, hys⟩ := h
    simp only [insertCandDesc]
    split
    · rename_i hgt
      rw [List.pairwise_cons]
      refine ⟨?_, ih hys⟩
      intro z hz
      rcases mem_insertCandDesc.mp hz with hz | hz
      · subst hz
        exact candKeyGt_ge hgt
      · exact hy z hz
    · rename_i hgt
      rw [List.pairwise_cons]
      have hxy : candKeyGe x y = true :=
        candKeyGt_false_ge (Bool.not_eq_true _ ▸ hgt)
      refine ⟨?_, List.pairwise_cons.mpr ⟨hy, hys⟩⟩
      intro z hz
      rcases List.mem_cons.mp hz with hz | hz
      · subst hz; exact hxy
      · exact candKeyGe_trans hxy (hy z hz)

theorem pairwise_sortCandidates (l : List Cand) :
    (sortCandidates l).Pairwise (fun a b => candKeyGe a b = true) := by
  induction l with
  | nil => simp [sortCandidates]
  | cons x xs ih => exact pairwise_insertCandDesc ih

theorem processRef_lex (lib : LibraryIndex) (ridx : TfidfRetrievalIndex)
    (params : MatchParams) (ref : Ref0)
    (h : (_deterministic_match ref lib).1 = none) :
    processRef lib ridx params ref = mkRefOut ref (lexVerdict lib ridx params ref) := by
  rcases he : _deterministic_match ref lib with ⟨m1, x, y⟩
  rw [he] at h
  simp only [] at h
  subst h
  simp only [processRef, he]


/-- C2: on the lexical path with a non-empty candidate list, let
`top1` be the best boosted score (the head of the sorted list — proved
maximal below) and `top2` the second-best (0 if absent).  The verdict
is `matched` with method `tfidf`, confidence `top1` and the top
candidate's citekey iff `top1` clears the auto-match threshold AND the
gap `top1 - top2` clears the auto-match gap; otherwise it is
`needs_llm` when `top1` reaches the needs-llm threshold and
`needs_review` below it. -/
theorem tfidf_tier_classification (lib : LibraryIndex) (ridx : TfidfRetrievalIndex)
    (params : MatchParams) (ref : Ref0)
    (hdet : (_deterministic_match ref lib).1 = none)
    (c0 : Cand) (cs : List Cand)
    (hc : (processRef lib ridx params ref).candidates = c0 :: cs)
    (hkey : c0.citekey ≠ "") :
    (∀ c ∈ (processRef lib ridx params ref).candidates, c.score ≤ c0.score) ∧
    (∀ m, (processRef lib ridx params ref).match? = some m →
      m.method = "tfidf" ∧
      m.confidence = c0.score ∧
      ((m.status = "matched" ∧ m.citekey = some c0.citekey) ↔
        (params.tfidf_auto_match_threshold ≤ c0.score ∧
          params.tfidf_auto_match_gap ≤ c0.score - top2Of cs)) ∧
      (¬(params.tfidf_auto_match_threshold ≤ c0.score ∧
          params.tfidf_auto_match_gap ≤ c0.score - top2Of cs) →
        (params.tfidf_needs_llm_threshold ≤ c0.score → m.status = "needs_llm") ∧
        (c0.score < params.tfidf_needs_llm_threshold → m.status = "needs_review"))) := by
  rw [processRef_lex lib ridx params ref hdet] at hc ⊢
  simp only [mkRefOut] at hc ⊢
  rcases hs : sortCandidates (lexCands lib ridx params ref) with _ | ⟨c, rest⟩
  · rw [lexVerdict, hs] at hc
    cases hc
  · have hpw := pairwise_sortCandidates (lexCands lib ridx params ref)
    rw [hs] at hpw
    have h2nd : (lexVerdict lib ridx params ref).2 = c :: rest := by
      simp only [lexVerdict, hs]
      split_ifs <;> rfl
    have hinj : c = c0 ∧ rest = cs := by
      have := h2nd.symm.trans hc
      injection this with ha hb
      exact ⟨ha, hb⟩
    obtain ⟨hc1, hc2⟩ := hinj
    subst hc1
    subst hc2
    constructor
    · intro cand hcand
      rw [h2nd] at hcand
      rcases List.mem_cons.mp hcand with h | h
      · subst h; exact le_refl _
      · exact candKeyGe_score ((List.pairwise_cons.mp hpw).1 cand h)
    · intro m hm
      simp only [Option.some.injEq] at hm
      by_cases h1 : params.tfidf_auto_match_threshold ≤ c.score ∧
          params.tfidf_auto_match_gap ≤ c.score - top2Of rest
      · have h1st : (lexVerdict lib ridx params ref).1 =
            { status := "matched"
              citekey := if c.citekey = "" then none else some c.citekey
              itemKey := if c.itemKey = "" then none else some c.itemKey
              method := "tfidf", confidence := c.score, reason := none } := by
          simp only [lexVerdict, hs]
          rw [if_pos h1]
        rw [h1st] at hm
        subst hm
        refine ⟨rfl, rfl, ?_, fun hcontra => absurd h1 hcontra⟩
        refine iff_of_true ⟨rfl, ?_⟩ h1
        simp only [if_neg hkey]
      · by_cases h2 : params.tfidf_needs_llm_threshold ≤ c.score
        · have h1st : (lexVerdict lib ridx params ref).1 =
              { status := "needs_llm", citekey := none, itemKey := none
                method := "tfidf", confidence := c.score, reason := none } := by
            simp only [lexVerdict, hs]
            rw [if_neg h1, if_pos h2]
          rw [h1st] at hm
          subst hm
          refine ⟨rfl, rfl, ?_, ?_⟩
          · refine iff_of_false (fun hmm => ?_) h1
            exact absurd (show ("needs_llm" : String) = "matched" from hmm.1) (by decide)
          · exact fun _ => ⟨fun _ => rfl, fun hlt => absurd h2 (not_le.mpr hlt)⟩
        · have h1st : (lexVerdict lib ridx params ref).1 =
              { status := "needs_review", citekey := none, itemKey := none
                method := "tfidf", confidence := c.score, reason := none } := by
            simp only [lexVerdict, hs]
            rw [if_neg h1, if_neg h2]
          rw [h1st] at hm
          subst hm
          refine ⟨rfl, rfl, ?_, ?_⟩
          · refine iff_of_false (fun hmm => ?_) h1
            exact absurd (show ("needs_review" : String) = "matched" from hmm.1) (by decide)
          · exact fun _ => ⟨fun hge => absurd hge h2, fun _ => rfl⟩

/-- C2 (witness): two candidates scoring 0.95 and 0.91 (top above the
auto-match threshold but gap 0.04 below the default gap 0.10) give
status `needs_llm`, never `matched`. -/
theorem tfidf_tier_classification_witness :
    ((_deterministic_match c2Ref c2Lib).1 = none) ∧
    ((processRef c2Lib c2Ridx defaultMatchParams c2Ref).candidates =
      [c2CandTop, c2CandSecond]) ∧
    (c2CandTop.citekey ≠ "") ∧
    (¬(defaultMatchParams.tfidf_auto_match_threshold ≤ c2CandTop.score ∧
        defaultMatchParams.tfidf_auto_match_gap ≤ c2CandTop.score -
          top2Of [c2CandSecond])) ∧
    (∀ m, (processRef c2Lib c2Ridx defaultMatchParams c2Ref).match? = some m →
      m.status = "needs_llm" ∧ m.status ≠ "matched") := by
  have hdet : (_deterministic_match c2Ref c2Lib).1 = none := by
    with_unfolding_all decide
  have hc : (processRef c2Lib c2Ridx defaultMatchParams c2Ref).candidates =
      [c2CandTop, c2CandSecond] := by
    with_unfolding_all decide
  have hkey : c2CandTop.citekey ≠ "" := by with_unfolding_all decide
  have hgap : ¬(defaultMatchParams.tfidf_auto_match_threshold ≤ c2CandTop.score ∧
      defaultMatchParams.tfidf_auto_match_gap ≤ c2CandTop.score -
        top2Of [c2CandSecond]) := by
    with_unfolding_all decide
  refine ⟨hdet, hc, hkey, hgap, ?_⟩
  intro m hm
  have h := (tfidf_tier_classification c2Lib c2Ridx defaultMatchParams c2Ref hdet
    c2CandTop [c2CandSecond] hc hkey).2 m hm
  have hstatus := (h.2.2.2 hgap).1 (by with_unfolding_all decide)
  refine ⟨hstatus, ?_⟩
  rw [hstatus]
  decide
